import Mathlib

/-!
# Procedural galaxy generator (`src/script.js`)

A shallow embedding of the script: the parameter store, the regeneration
function `generateGalaxy` with the objects it creates, disposes and attaches to
the scene, the tweak-panel bindings, and the window resize listener.

Numbers are elements of an ordered field `α` with a floor function: arithmetic
on JavaScript numbers is exact (the rounding of doubles is not modelled), and a
store into a `Float32Array` rounds the stored value to the nearest float32
(`Math.fround`).  The library functions the script calls (`Math.cos`,
`Math.sin`, `Math.pow`, `Math.PI`, the `THREE.Color` constructor, the
perspective projection) are the fields of an environment record `Env`, so every
definition is executable once an environment is supplied.  `Math.random` is an explicit stream of draws that is
threaded through the state; the constructors of `THREE.BufferGeometry`,
`THREE.PointsMaterial` and `THREE.Points` take four draws each for the uuid of
the new object.  `count` and `branches` are natural numbers (the
panel moves them in integer steps from integer initial values).  Division and
remainder are those of the field and of `ℕ`; they agree with JavaScript's for a
non-zero divisor, which is the case for `radius` and `branches` in every store
reachable through the panel (see the section on the tweak panel).
-/

namespace Galaxy

variable {α : Type}

/-! ## Library values -/

/-- Library functions used by the script. -/
structure Env (α : Type) where
  /-- The script's `Math.cos`. -/
  cos : α → α
  /-- The script's `Math.sin`. -/
  sin : α → α
  /-- The script's `Math.pow`. -/
  pow : α → α → α
  /-- The script's `Math.PI`. -/
  PI : α
  /-- Channels produced by `new THREE.Color(style)` as a triple `(r, g, b)`. -/
  color : String → α × α × α
  /-- Projection matrix entries computed from `fov`, `aspect`, `near`, `far`. -/
  makePerspective : α → α → α → α → List α

/-- A colour of `THREE.Color`: three channels. -/
structure Color (α : Type) where
  r : α
  g : α
  b : α

/-- Constructor `new THREE.Color(style)`. -/
def Color.new (env : Env α) (style : String) : Color α :=
  { r := (env.color style).1, g := (env.color style).2.1, b := (env.color style).2.2 }

/-- Method `Color.clone()`: a fresh colour with the same channels. -/
def Color.clone (c : Color α) : Color α :=
  { r := c.r, g := c.g, b := c.b }

/-- Method `Color.lerp(color, alpha)`: each channel moves by
`(color.channel - this.channel) * alpha`. -/
def Color.lerp [Field α] (c : Color α) (color : Color α) (alpha : α) : Color α :=
  { r := c.r + (color.r - c.r) * alpha,
    g := c.g + (color.g - c.g) * alpha,
    b := c.b + (color.b - c.b) * alpha }

/-- A `Float32Array`, as the list of its elements. -/
abbrev Float32Array (α : Type) := List α

/-- Constructor `new Float32Array(length)`: `length` zeros. -/
def Float32Array.new [Zero α] (length : Nat) : Float32Array α :=
  List.replicate length 0

/-- Nearest integer, a tie going to the even neighbour. -/
def roundHalfEven [LinearOrderedField α] [FloorRing α] (x : α) : ℤ :=
  if x - (⌊x⌋ : α) < 1 / 2 then ⌊x⌋
  else if 1 / 2 < x - (⌊x⌋ : α) then ⌊x⌋ + 1
  else if ⌊x⌋ % 2 = 0 then ⌊x⌋ else ⌊x⌋ + 1

/-- Spacing of the float32 values around a magnitude `a`: `2 ^ (e - 23)` with
`2 ^ e ≤ a < 2 ^ (e + 1)`, and `e = -126` for the subnormal magnitudes below
`2 ^ (-126)`. -/
def ulp32 [LinearOrderedField α] [FloorRing α] (a : α) : α :=
  (2 : α) ^ (max (Int.log 2 a) (-126) - 23)

/-- Nearest float32 to a magnitude `a ≥ 0`, ties to even. -/
def roundMagnitude [LinearOrderedField α] [FloorRing α] (a : α) : α :=
  (roundHalfEven (a / ulp32 a) : α) * ulp32 a

/-- The function `Math.fround`: the nearest float32, ties to even; this is the
conversion a `Float32Array` applies to every stored value.  Magnitudes beyond the
largest finite float32, which JavaScript turns into an infinity, are rounded on
the same grid continued upwards. -/
def Math.fround [LinearOrderedField α] [FloorRing α] (x : α) : α :=
  (if x < 0 then -1 else 1) * roundMagnitude |x|

/-- Indexed store `array[index] = value`: the value is rounded to float32; a
store past the end is ignored. -/
def Float32Array.store [LinearOrderedField α] [FloorRing α] (array : Float32Array α)
    (index : Nat) (value : α) : Float32Array α :=
  List.set array index (Math.fround value)

/-- A `THREE.BufferAttribute`. -/
structure BufferAttribute (α : Type) where
  array : Float32Array α
  itemSize : Nat

/-- A `THREE.BufferGeometry`: an object identity and its named attributes. -/
structure BufferGeometry (α : Type) where
  id : Nat
  attributes : List (String × BufferAttribute α)

/-- Method `geometry.setAttribute(name, attribute)`: assigns `attributes[name]`. -/
def BufferGeometry.setAttribute (g : BufferGeometry α) (key : String)
    (value : BufferAttribute α) : BufferGeometry α :=
  { g with attributes := (g.attributes.filter (fun e => e.1 != key)) ++ [(key, value)] }

/-- Method `geometry.getAttribute(name)`. -/
def BufferGeometry.getAttribute (g : BufferGeometry α) (key : String) :
    Option (BufferAttribute α) :=
  (g.attributes.find? (fun e => e.1 == key)).map (fun e => e.2)

/-- Blending modes of a material. -/
inductive Blending where
  | NoBlending
  | NormalBlending
  | AdditiveBlending
  | SubtractiveBlending
  | MultiplyBlending
  deriving DecidableEq, Repr

/-- A `THREE.PointsMaterial`. -/
structure PointsMaterial (α : Type) where
  id : Nat
  size : α
  sizeAttenuation : Bool
  depthWrite : Bool
  blending : Blending
  vertexColors : Bool

/-- A `THREE.Points` object; geometry and material are held by reference. -/
structure Points where
  id : Nat
  geometry : Nat
  material : Nat
  deriving DecidableEq, Repr

/-- References held in the children list of the scene. -/
inductive Object3D where
  | points (id : Nat)
  | camera
  deriving DecidableEq, Repr

/-- Disposable resources. -/
inductive Resource where
  | geometry (id : Nat)
  | material (id : Nat)
  deriving DecidableEq, Repr

/-- Creation and disposal events, in program order. -/
inductive Event where
  | create (r : Resource)
  | dispose (r : Resource)
  deriving DecidableEq, Repr

/-! ## Parameter store -/

/-- The global `parameters` object. -/
structure Parameters (α : Type) where
  count : Nat
  size : α
  radius : α
  branches : Nat
  spin : α
  randomnessPower : α
  insideColor : String
  outsideColor : String

/-- Initial contents of the store (lines 20-28). -/
def parameters [DivisionRing α] : Parameters α :=
  { count := 100000,
    size := 0.01,
    radius := 5,
    branches := 3,
    spin := 1,
    randomnessPower := 3,
    insideColor := "#ff6030",
    outsideColor := "#1b3984" }

/-! ## Generator state -/

/-- The variables `geometry`, `material`, `particles`, the children of `scene`,
the remaining stream of `Math.random` draws, the next fresh object identity and
the log of creation and disposal events. -/
structure GalaxyState (α : Type) where
  geometry : Option (BufferGeometry α)
  material : Option (PointsMaterial α)
  particles : Option Points
  scene : List Object3D
  random : Nat → α
  nextId : Nat
  log : List Event

/-- State when the script starts: the three variables are `null`, the scene is
empty and nothing has been created. -/
def GalaxyState.initial (random : Nat → α) : GalaxyState α :=
  { geometry := none, material := none, particles := none, scene := [],
    random := random, nextId := 0, log := [] }

/-- One call of `Math.random()`: the head of the stream and the rest of it. -/
def Math.random (random : Nat → α) : α × (Nat → α) :=
  (random 0, fun n => random (n + 1))

/-- The uuid drawn by the constructor of a geometry, a material or an
`Object3D`: four calls of `Math.random()`.  The uuid itself is not kept (objects
are told apart by their allocation number); the rest of the stream is returned. -/
def generateUUID (random : Nat → α) : (α × α × α × α) × (Nat → α) :=
  let d0 := Math.random random
  let d1 := Math.random d0.2
  let d2 := Math.random d1.2
  let d3 := Math.random d2.2
  ((d0.1, d1.1, d2.1, d3.1), d3.2)

/-- Value of the local constant `branchAngle` for particle `i` (lines 62-63). -/
def branchAngle [DivisionRing α] (env : Env α) (params : Parameters α) (i : Nat) : α :=
  (((i % params.branches : Nat) : α) / (params.branches : α)) * env.PI * 2

/-- Value of `Math.pow(u, randomnessPower) * (v < 0.5 ? 1 : -1)` for the two
draws `u` and `v` (lines 67-75). -/
def randomOffset [LinearOrderedField α] (env : Env α) (params : Parameters α) (u v : α) : α :=
  env.pow u params.randomnessPower * (if v < 0.5 then 1 else -1)

/-- Buffers and random stream carried through the loop. -/
structure LoopState (α : Type) where
  positions : Float32Array α
  colors : Float32Array α
  random : Nat → α

/-- Body of the `for` loop for index `i` (lines 56-88). -/
def loopBody [LinearOrderedField α] [FloorRing α] (env : Env α) (params : Parameters α)
    (colorInside colorOutside : Color α) (st : LoopState α) (i : Nat) : LoopState α :=
  let i3 := i * 3
  let d0 := Math.random st.random
  let radius := d0.1 * params.radius
  let spinAngle := radius * params.spin
  let branchAngle := branchAngle env params i
  let d1 := Math.random d0.2
  let d2 := Math.random d1.2
  let randomX := randomOffset env params d1.1 d2.1
  let d3 := Math.random d2.2
  let d4 := Math.random d3.2
  let randomY := randomOffset env params d3.1 d4.1
  let d5 := Math.random d4.2
  let d6 := Math.random d5.2
  let randomZ := randomOffset env params d5.1 d6.1
  let positions := st.positions.store i3 (env.cos (branchAngle + spinAngle) * radius + randomX)
  let positions := positions.store (i3 + 1) randomY
  let positions := positions.store (i3 + 2) (env.sin (branchAngle + spinAngle) * radius + randomZ)
  let mixedColor := colorInside.clone
  let mixedColor := mixedColor.lerp colorOutside (radius / params.radius)
  let colors := st.colors.store (i3 + 0) mixedColor.r
  let colors := colors.store (i3 + 1) mixedColor.g
  let colors := colors.store (i3 + 2) mixedColor.b
  { positions := positions, colors := colors, random := d6.2 }

/-- The loop `for (let i = 0; i < parameters.count; i++)` (lines 55-89). -/
def populate [LinearOrderedField α] [FloorRing α] (env : Env α) (params : Parameters α)
    (colorInside colorOutside : Color α) (st : LoopState α) : LoopState α :=
  (List.range params.count).foldl (loopBody env params colorInside colorOutside) st

/-- Lines 47-89: allocate both arrays, build both colours and run the loop. -/
def buildBuffers [LinearOrderedField α] [FloorRing α] (env : Env α) (params : Parameters α)
    (random : Nat → α) : LoopState α :=
  let positions : Float32Array α := Float32Array.new (params.count * 3)
  let colors : Float32Array α := Float32Array.new (params.count * 3)
  let colorInside := Color.new env params.insideColor
  let colorOutside := Color.new env params.outsideColor
  populate env params colorInside colorOutside
    { positions := positions, colors := colors, random := random }

/-- Lines 37-41: when `particles` is not `null`, dispose the geometry and the
material and remove the points from the scene.  A `null` geometry or material
at that point is a `TypeError`, modelled as `none`. -/
def destroyOldMesh (s : GalaxyState α) : Option (GalaxyState α) :=
  match s.particles with
  | none => some s
  | some particles =>
    match s.geometry, s.material with
    | some geometry, some material =>
      some { s with
        log := s.log ++ [Event.dispose (Resource.geometry geometry.id),
                         Event.dispose (Resource.material material.id)],
        scene := s.scene.erase (Object3D.points particles.id) }
    | _, _ => none

/-- Lines 44-105: create the geometry, fill and attach the buffers, create the
material and the points, and add the points to the scene.  Each of the three
constructors draws a uuid, the geometry before the loop, the material and the
points after it. -/
def createMesh [LinearOrderedField α] [FloorRing α] (env : Env α) (params : Parameters α)
    (s : GalaxyState α) : GalaxyState α :=
  let uuid := generateUUID s.random
  let geometry : BufferGeometry α := { id := s.nextId, attributes := [] }
  let buffers := buildBuffers env params uuid.2
  let geometry := geometry.setAttribute "position" { array := buffers.positions, itemSize := 3 }
  let geometry := geometry.setAttribute "color" { array := buffers.colors, itemSize := 3 }
  let uuid := generateUUID buffers.random
  let material : PointsMaterial α :=
    { id := s.nextId + 1,
      size := params.size,
      sizeAttenuation := true,
      depthWrite := false,
      blending := Blending.AdditiveBlending,
      vertexColors := true }
  let uuid := generateUUID uuid.2
  let particles : Points :=
    { id := s.nextId + 2, geometry := geometry.id, material := material.id }
  { geometry := some geometry,
    material := some material,
    particles := some particles,
    scene := s.scene ++ [Object3D.points particles.id],
    random := uuid.2,
    nextId := s.nextId + 3,
    log := s.log ++ [Event.create (Resource.geometry geometry.id),
                     Event.create (Resource.material material.id)] }

/-- The function `generateGalaxy` (lines 35-106). -/
def generateGalaxy [LinearOrderedField α] [FloorRing α] (env : Env α) (params : Parameters α)
    (s : GalaxyState α) : Option (GalaxyState α) :=
  (destroyOldMesh s).map (createMesh env params)

/-- Successive calls of `generateGalaxy`, one per parameter store of the list. -/
def regenerate [LinearOrderedField α] [FloorRing α] (env : Env α) :
    List (Parameters α) → GalaxyState α → Option (GalaxyState α)
  | [], s => some s
  | params :: rest, s => (generateGalaxy env params s).bind (regenerate env rest)

/-- Array of the named attribute of the current geometry (empty when absent). -/
def GalaxyState.buffer (s : GalaxyState α) (key : String) : Float32Array α :=
  match s.geometry with
  | none => []
  | some g =>
    match g.getAttribute key with
    | none => []
    | some a => a.array

/-- Point-cloud references among the children of the scene. -/
def pointClouds (scene : List Object3D) : List Object3D :=
  scene.filter (fun o => match o with | Object3D.points _ => true | Object3D.camera => false)

/-- Resources created according to the log. -/
def created (log : List Event) : List Resource :=
  log.filterMap (fun e => match e with | Event.create r => some r | Event.dispose _ => none)

/-- Resources disposed according to the log, one entry per disposal. -/
def disposed (log : List Event) : List Resource :=
  log.filterMap (fun e => match e with | Event.dispose r => some r | Event.create _ => none)

/-- Resources created and not disposed. -/
def live (log : List Event) : List Resource :=
  (created log).filter (fun r => decide (r ∉ disposed log))

/-- Object identity of a resource. -/
def Resource.id : Resource → Nat
  | Resource.geometry id => id
  | Resource.material id => id

/-- The null test of line 37 guards all three variables: when `particles` is
set, so are `geometry` and `material`. -/
def GalaxyState.WellFormed (s : GalaxyState α) : Prop :=
  s.particles ≠ none → s.geometry ≠ none ∧ s.material ≠ none

/-- Resources held by the variables `geometry` and `material` when a point cloud
is installed. -/
def GalaxyState.held (s : GalaxyState α) : List Resource :=
  match s.particles, s.geometry, s.material with
  | some _, some g, some m => [Resource.geometry g.id, Resource.material m.id]
  | _, _, _ => []

/-- Point clouds the variable `particles` refers to. -/
def GalaxyState.installed (s : GalaxyState α) : List Object3D :=
  match s.particles with
  | none => []
  | some p => [Object3D.points p.id]

/-- Scene invariant: the point clouds in the scene are exactly the one `particles`
refers to, and every point cloud in the scene has an identity already allocated. -/
def GalaxyState.SceneInv (s : GalaxyState α) : Prop :=
  s.WellFormed ∧ (∀ id, Object3D.points id ∈ s.scene → id < s.nextId) ∧
    pointClouds s.scene = s.installed

/-- Resource invariant: the live resources are exactly the ones held by the
variables, nothing was disposed twice, and every logged resource has an identity
already allocated. -/
def GalaxyState.LogInv (s : GalaxyState α) : Prop :=
  s.WellFormed ∧ (∀ r, r ∈ created s.log → r.id < s.nextId) ∧
    (∀ r, r ∈ disposed s.log → r.id < s.nextId) ∧
    (disposed s.log).Nodup ∧ live s.log = s.held

/-! ## Tweak panel (lines 110-152) -/

/-- Numeric fields bound to a panel controller. -/
inductive NumericField where
  | count
  | size
  | radius
  | branches
  | spin
  | randomnessPower
  deriving DecidableEq, Repr

/-- Range and step declared for a controller by `.min(..).max(..).step(..)`. -/
structure Controller (α : Type) where
  min : α
  max : α
  step : α

/-- The six numeric controllers added to the panel. -/
def gui [DivisionRing α] : NumericField → Controller α
  | NumericField.count => { min := 100, max := 1000000, step := 100 }
  | NumericField.size => { min := 0.001, max := 0.1, step := 0.001 }
  | NumericField.radius => { min := 1, max := 20, step := 0.1 }
  | NumericField.branches => { min := 2, max := 20, step := 1 }
  | NumericField.spin => { min := -5, max := 5, step := 0.001 }
  | NumericField.randomnessPower => { min := 1, max := 10, step := 0.001 }

/-- Value of a numeric field of the store. -/
def Parameters.get [NatCast α] (p : Parameters α) : NumericField → α
  | NumericField.count => (p.count : α)
  | NumericField.size => p.size
  | NumericField.radius => p.radius
  | NumericField.branches => (p.branches : α)
  | NumericField.spin => p.spin
  | NumericField.randomnessPower => p.randomnessPower

/-- Every numeric field lies between the `min` and `max` of its controller. -/
def Parameters.InRange [LinearOrderedField α] (p : Parameters α) : Prop :=
  ∀ f : NumericField, (gui f).min ≤ p.get f ∧ p.get f ≤ (gui f).max

/-- One panel commit: one field of the store is set, a numeric field to a value
between the `min` and `max` of its controller, a colour field to any style. -/
inductive Commit [LinearOrderedField α] : Parameters α → Parameters α → Prop where
  | count (p : Parameters α) (v : Nat) :
      (gui NumericField.count).min ≤ (v : α) → (v : α) ≤ (gui NumericField.count).max →
      Commit p { p with count := v }
  | size (p : Parameters α) (v : α) :
      (gui NumericField.size).min ≤ v → v ≤ (gui NumericField.size).max →
      Commit p { p with size := v }
  | radius (p : Parameters α) (v : α) :
      (gui NumericField.radius).min ≤ v → v ≤ (gui NumericField.radius).max →
      Commit p { p with radius := v }
  | branches (p : Parameters α) (v : Nat) :
      (gui NumericField.branches).min ≤ (v : α) → (v : α) ≤ (gui NumericField.branches).max →
      Commit p { p with branches := v }
  | spin (p : Parameters α) (v : α) :
      (gui NumericField.spin).min ≤ v → v ≤ (gui NumericField.spin).max →
      Commit p { p with spin := v }
  | randomnessPower (p : Parameters α) (v : α) :
      (gui NumericField.randomnessPower).min ≤ v →
      v ≤ (gui NumericField.randomnessPower).max →
      Commit p { p with randomnessPower := v }
  | insideColor (p : Parameters α) (style : String) :
      Commit p { p with insideColor := style }
  | outsideColor (p : Parameters α) (style : String) :
      Commit p { p with outsideColor := style }

/-- Stores reachable from the initial store by panel commits. -/
def Reachable [LinearOrderedField α] (p : Parameters α) : Prop :=
  Relation.ReflTransGen Commit (parameters : Parameters α) p

/-! ## Resize listener (lines 165-182) -/

/-- The object `sizes`. -/
structure Sizes (α : Type) where
  width : α
  height : α

/-- The fields of `window` read by the listener. -/
structure Window (α : Type) where
  innerWidth : α
  innerHeight : α
  devicePixelRatio : α

/-- A `THREE.PerspectiveCamera`: its frustum parameters and the projection
matrix last computed from them. -/
structure PerspectiveCamera (α : Type) where
  fov : α
  aspect : α
  near : α
  far : α
  projectionMatrix : List α

/-- Method `camera.updateProjectionMatrix()`. -/
def PerspectiveCamera.updateProjectionMatrix (env : Env α) (camera : PerspectiveCamera α) :
    PerspectiveCamera α :=
  { camera with
    projectionMatrix := env.makePerspective camera.fov camera.aspect camera.near camera.far }

/-- The size and pixel ratio held by a `THREE.WebGLRenderer`. -/
structure WebGLRenderer (α : Type) where
  width : α
  height : α
  pixelRatio : α

/-- Method `renderer.setSize(width, height)`. -/
def WebGLRenderer.setSize (renderer : WebGLRenderer α) (width height : α) : WebGLRenderer α :=
  { renderer with width := width, height := height }

/-- Method `renderer.setPixelRatio(value)`. -/
def WebGLRenderer.setPixelRatio (renderer : WebGLRenderer α) (value : α) : WebGLRenderer α :=
  { renderer with pixelRatio := value }

/-- The objects the resize listener writes. -/
structure ViewState (α : Type) where
  sizes : Sizes α
  camera : PerspectiveCamera α
  renderer : WebGLRenderer α

/-- The resize listener (lines 170-182). -/
def onResize [LinearOrderedField α] (env : Env α) (window : Window α) (v : ViewState α) :
    ViewState α :=
  let sizes : Sizes α := { width := window.innerWidth, height := window.innerHeight }
  let camera := { v.camera with aspect := sizes.width / sizes.height }
  let camera := camera.updateProjectionMatrix env
  let renderer := v.renderer.setSize sizes.width sizes.height
  let renderer := renderer.setPixelRatio (min window.devicePixelRatio 2)
  { sizes := sizes, camera := camera, renderer := renderer }

/-! ## Closed forms of the values computed by the loop

The loop consumes seven draws per particle; with `random` the stream at loop
entry, particle `i` reads `random (7 * i)` to `random (7 * i + 6)`.  In a call of
`generateGalaxy` from a state `s` the stream at loop entry is
`fun n => s.random (n + 4)`, the geometry's uuid having taken four draws.  The
arrays hold the float32 roundings of the values below. -/

/-- Value of the local constant `radius` for particle `i`. -/
def radiusAt [Mul α] (params : Parameters α) (random : Nat → α) (i : Nat) : α :=
  random (7 * i) * params.radius

/-- Value assigned to `positions[i * 3 + k]` for `k = 0, 1, 2`, before the store
rounds it. -/
def positionAt [LinearOrderedField α] (env : Env α) (params : Parameters α)
    (random : Nat → α) (i k : Nat) : α :=
  match k with
  | 0 => env.cos (branchAngle env params i + radiusAt params random i * params.spin)
           * radiusAt params random i
         + randomOffset env params (random (7 * i + 1)) (random (7 * i + 2))
  | 1 => randomOffset env params (random (7 * i + 3)) (random (7 * i + 4))
  | _ => env.sin (branchAngle env params i + radiusAt params random i * params.spin)
           * radiusAt params random i
         + randomOffset env params (random (7 * i + 5)) (random (7 * i + 6))

/-- Channel `k` of a colour: `r`, `g`, `b` for `k = 0, 1, 2`. -/
def Color.channel (c : Color α) (k : Nat) : α :=
  match k with
  | 0 => c.r
  | 1 => c.g
  | _ => c.b

/-- All three channels lie in `[0, 1]`. -/
def Color.InUnit [LinearOrderedField α] (c : Color α) : Prop :=
  (0 ≤ c.r ∧ c.r ≤ 1) ∧ (0 ≤ c.g ∧ c.g ≤ 1) ∧ (0 ≤ c.b ∧ c.b ≤ 1)

/-- Value of the interpolation factor `radius / parameters.radius` for particle `i`. -/
def alphaAt [LinearOrderedField α] (params : Parameters α) (random : Nat → α) (i : Nat) : α :=
  radiusAt params random i / params.radius

/-- Value assigned to `colors[i * 3 + k]` for `k = 0, 1, 2`, before the store
rounds it. -/
def colorAt [LinearOrderedField α] (env : Env α) (params : Parameters α)
    (random : Nat → α) (i k : Nat) : α :=
  (Color.new env params.insideColor).channel k
    + ((Color.new env params.outsideColor).channel k
        - (Color.new env params.insideColor).channel k) * alphaAt params random i

/-- The scenario of the specification: one particle, radius 5, three branches,
no spin, randomness power 1. -/
def scenario [DivisionRing α] : Parameters α :=
  { count := 1,
    size := 0.01,
    radius := 5,
    branches := 3,
    spin := 0,
    randomnessPower := 1,
    insideColor := "#ff6030",
    outsideColor := "#1b3984" }

/-- A store the panel can reach from the initial one: radius 5.3, no spin,
randomness power 1. -/
def roundingStore [DivisionRing α] : Parameters α :=
  { count := 100000,
    size := 0.01,
    radius := 5.3,
    branches := 3,
    spin := 0,
    randomnessPower := 1,
    insideColor := "#ff6030",
    outsideColor := "#1b3984" }

/-- Channels of the two initial colour styles read as 8-bit components over 255. -/
def sampleColor [DivisionRing α] (style : String) : α × α × α :=
  if style = "#ff6030" then (1, 96 / 255, 48 / 255) else (27 / 255, 57 / 255, 132 / 255)

/-- A state left by an earlier generation: a geometry, a material and a point
cloud are installed and the point cloud is in the scene next to the camera. -/
def GalaxyState.sampleInstalled (random : Nat → α) (size : α) : GalaxyState α :=
  { geometry := some { id := 0, attributes := [] },
    material := some { id := 1, size := size, sizeAttenuation := true, depthWrite := false,
                       blending := Blending.AdditiveBlending, vertexColors := true },
    particles := some { id := 2, geometry := 0, material := 1 },
    scene := [Object3D.points 2, Object3D.camera],
    random := random,
    nextId := 3,
    log := [Event.create (Resource.geometry 0), Event.create (Resource.material 1)] }

/-! ## Rounding to float32 -/

theorem two_pow_24_mul [LinearOrderedField α] (e : ℤ) : ((2 ^ 24 : ℤ) : α) * (2 : α) ^ (e - 23) = (2 : α) ^ (e + 1) := by
  have h : ((2 ^ 24 : ℤ) : α) = (2 : α) ^ (24 : ℤ) := by norm_num
  rw [h, ← zpow_add₀ (by norm_num : (2 : α) ≠ 0)]
  congr 1
  ring

theorem two_pow_23_mul [LinearOrderedField α] (e : ℤ) : ((2 ^ 23 : ℤ) : α) * (2 : α) ^ (e - 23) = (2 : α) ^ e := by
  have h : ((2 ^ 23 : ℤ) : α) = (2 : α) ^ (23 : ℤ) := by norm_num
  rw [h, ← zpow_add₀ (by norm_num : (2 : α) ≠ 0)]
  congr 1
  ring

section Rounding

variable [LinearOrderedField α] [FloorRing α]

theorem roundHalfEven_cases (x : α) : roundHalfEven x = ⌊x⌋ ∨ roundHalfEven x = ⌊x⌋ + 1 := by
  unfold roundHalfEven
  split_ifs <;> simp

theorem floor_le_roundHalfEven (x : α) : ⌊x⌋ ≤ roundHalfEven x := by
  rcases roundHalfEven_cases x with h | h <;> omega

theorem roundHalfEven_le_floor_succ (x : α) : roundHalfEven x ≤ ⌊x⌋ + 1 := by
  rcases roundHalfEven_cases x with h | h <;> omega

theorem roundHalfEven_intCast (n : ℤ) : roundHalfEven (n : α) = n := by
  unfold roundHalfEven
  simp

theorem roundHalfEven_mono {x y : α} (h : x ≤ y) : roundHalfEven x ≤ roundHalfEven y := by
  have hf : ⌊x⌋ ≤ ⌊y⌋ := Int.floor_mono h
  rcases lt_or_eq_of_le hf with hlt | heq
  · calc roundHalfEven x ≤ ⌊x⌋ + 1 := roundHalfEven_le_floor_succ x
      _ ≤ ⌊y⌋ := hlt
      _ ≤ roundHalfEven y := floor_le_roundHalfEven y
  · have hd : x - (⌊x⌋ : α) ≤ y - (⌊y⌋ : α) := by rw [heq]; linarith
    unfold roundHalfEven
    rw [heq] at hd ⊢
    split_ifs <;> first | omega | (exfalso; linarith)

theorem ulp32_pos (a : α) : 0 < ulp32 a := by
  unfold ulp32
  positivity

/-- Exponent of the float32 binade of a magnitude, with the subnormal floor. -/
theorem binade_bounds {a : α} (ha : 0 < a) :
    a < (2 : α) ^ (max (Int.log 2 a) (-126) + 1) ∧
    (-126 < max (Int.log 2 a) (-126) → (2 : α) ^ max (Int.log 2 a) (-126) ≤ a) := by
  have h1 : a < (2 : α) ^ (Int.log 2 a + 1) := by
    have := Int.lt_zpow_succ_log_self (R := α) (b := 2) (by norm_num) a
    simpa using this
  have h2 : (2 : α) ^ Int.log 2 a ≤ a := by
    have := Int.zpow_log_le_self (R := α) (b := 2) (by norm_num) ha
    simpa using this
  constructor
  · refine lt_of_lt_of_le h1 ?_
    apply zpow_le_zpow_right₀ (by norm_num)
    have := le_max_left (Int.log 2 a) (-126)
    omega
  · intro hlt
    have hmax : max (Int.log 2 a) (-126) = Int.log 2 a := by
      apply max_eq_left
      by_contra hcon
      push_neg at hcon
      rw [max_eq_right (le_of_lt hcon)] at hlt
      exact lt_irrefl _ hlt
    rw [hmax]
    exact h2

theorem roundMagnitude_zero : roundMagnitude (0 : α) = 0 := by
  simp [roundMagnitude, roundHalfEven]

theorem roundMagnitude_nonneg {a : α} (ha : 0 ≤ a) : 0 ≤ roundMagnitude a := by
  unfold roundMagnitude
  have hu := ulp32_pos a
  have h0 : (0 : ℤ) ≤ roundHalfEven (a / ulp32 a) :=
    le_trans (Int.floor_nonneg.mpr (div_nonneg ha (le_of_lt hu))) (floor_le_roundHalfEven _)
  have h1 : (0 : α) ≤ (roundHalfEven (a / ulp32 a) : α) := by exact_mod_cast h0
  exact mul_nonneg h1 (le_of_lt hu)

theorem roundMagnitude_le_binade {a : α} (ha : 0 < a) :
    roundMagnitude a ≤ (2 : α) ^ (max (Int.log 2 a) (-126) + 1) := by
  have hu := ulp32_pos a
  have hb := (binade_bounds ha).1
  have hq : a / ulp32 a ≤ ((2 ^ 24 : ℤ) : α) := by
    rw [div_le_iff₀ hu]
    have : ((2 ^ 24 : ℤ) : α) * ulp32 a = (2 : α) ^ (max (Int.log 2 a) (-126) + 1) := by
      exact two_pow_24_mul _
    rw [this]
    exact le_of_lt hb
  have hr : roundHalfEven (a / ulp32 a) ≤ (2 ^ 24 : ℤ) := by
    have := roundHalfEven_mono hq
    rwa [roundHalfEven_intCast] at this
  have hr' : (roundHalfEven (a / ulp32 a) : α) ≤ ((2 ^ 24 : ℤ) : α) := by exact_mod_cast hr
  calc roundMagnitude a = (roundHalfEven (a / ulp32 a) : α) * ulp32 a := rfl
    _ ≤ ((2 ^ 24 : ℤ) : α) * ulp32 a := mul_le_mul_of_nonneg_right hr' (le_of_lt hu)
    _ = (2 : α) ^ (max (Int.log 2 a) (-126) + 1) := by
      exact two_pow_24_mul _

theorem binade_le_roundMagnitude {a : α} (ha : 0 < a)
    (hn : -126 < max (Int.log 2 a) (-126)) :
    (2 : α) ^ max (Int.log 2 a) (-126) ≤ roundMagnitude a := by
  have hu := ulp32_pos a
  have hb := (binade_bounds ha).2 hn
  have hpow : ((2 ^ 23 : ℤ) : α) * ulp32 a = (2 : α) ^ max (Int.log 2 a) (-126) := by
    exact two_pow_23_mul _
  have hq : ((2 ^ 23 : ℤ) : α) ≤ a / ulp32 a := by
    rw [le_div_iff₀ hu, hpow]
    exact hb
  have hr : (2 ^ 23 : ℤ) ≤ roundHalfEven (a / ulp32 a) := by
    have := roundHalfEven_mono hq
    rwa [roundHalfEven_intCast] at this
  have hr' : ((2 ^ 23 : ℤ) : α) ≤ (roundHalfEven (a / ulp32 a) : α) := by exact_mod_cast hr
  calc (2 : α) ^ max (Int.log 2 a) (-126) = ((2 ^ 23 : ℤ) : α) * ulp32 a := hpow.symm
    _ ≤ (roundHalfEven (a / ulp32 a) : α) * ulp32 a :=
      mul_le_mul_of_nonneg_right hr' (le_of_lt hu)

theorem roundMagnitude_mono {a b : α} (ha : 0 ≤ a) (hab : a ≤ b) :
    roundMagnitude a ≤ roundMagnitude b := by
  rcases eq_or_lt_of_le ha with h0 | hpos
  · rw [← h0, roundMagnitude_zero]
    exact roundMagnitude_nonneg (le_trans ha hab)
  · have hbpos : 0 < b := lt_of_lt_of_le hpos hab
    have hlog : Int.log 2 a ≤ Int.log 2 b := Int.log_mono_right hpos hab
    have hE : max (Int.log 2 a) (-126) ≤ max (Int.log 2 b) (-126) :=
      max_le_max hlog (le_refl _)
    rcases eq_or_lt_of_le hE with heq | hlt
    · have hu : ulp32 a = ulp32 b := by unfold ulp32; rw [heq]
      unfold roundMagnitude
      rw [hu]
      have hub := ulp32_pos b
      have hq : a / ulp32 b ≤ b / ulp32 b := div_le_div_of_nonneg_right hab (le_of_lt hub)
      have hr : (roundHalfEven (a / ulp32 b) : α) ≤ (roundHalfEven (b / ulp32 b) : α) := by
        exact_mod_cast roundHalfEven_mono hq
      exact mul_le_mul_of_nonneg_right hr (le_of_lt hub)
    · have hn : -126 < max (Int.log 2 b) (-126) :=
        lt_of_le_of_lt (le_max_right _ _) hlt
      calc roundMagnitude a ≤ (2 : α) ^ (max (Int.log 2 a) (-126) + 1) :=
            roundMagnitude_le_binade hpos
        _ ≤ (2 : α) ^ max (Int.log 2 b) (-126) :=
            zpow_le_zpow_right₀ (by norm_num) (by omega)
        _ ≤ roundMagnitude b := binade_le_roundMagnitude hbpos hn

theorem fround_of_nonneg {x : α} (hx : 0 ≤ x) : Math.fround x = roundMagnitude x := by
  unfold Math.fround
  rw [if_neg (not_lt.mpr hx), abs_of_nonneg hx, one_mul]

theorem fround_of_neg {x : α} (hx : x < 0) : Math.fround x = -roundMagnitude (-x) := by
  unfold Math.fround
  rw [if_pos hx, abs_of_neg hx, neg_one_mul]

theorem fround_zero : Math.fround (0 : α) = 0 := by
  rw [fround_of_nonneg (le_refl _), roundMagnitude_zero]

theorem fround_neg (x : α) : Math.fround (-x) = -Math.fround x := by
  rcases lt_trichotomy x 0 with h | h | h
  · rw [fround_of_neg h, fround_of_nonneg (by linarith), neg_neg]
  · subst h
    simp [fround_zero]
  · rw [fround_of_neg (by linarith), fround_of_nonneg (le_of_lt h), neg_neg]

theorem fround_mono {x y : α} (h : x ≤ y) : Math.fround x ≤ Math.fround y := by
  rcases lt_or_le x 0 with hx | hx
  · rcases lt_or_le y 0 with hy | hy
    · rw [fround_of_neg hx, fround_of_neg hy]
      have := roundMagnitude_mono (a := -y) (b := -x) (by linarith) (by linarith)
      linarith
    · rw [fround_of_neg hx, fround_of_nonneg hy]
      have h1 := roundMagnitude_nonneg (a := -x) (by linarith)
      have h2 := roundMagnitude_nonneg hy
      linarith
  · rw [fround_of_nonneg hx, fround_of_nonneg (le_trans hx h)]
    exact roundMagnitude_mono hx h

theorem fround_one : Math.fround (1 : α) = 1 := by
  rw [fround_of_nonneg zero_le_one]
  have hu : ulp32 (1 : α) = (2 : α) ^ (-23 : ℤ) := by
    unfold ulp32
    rw [Int.log_one_right]
    norm_num
  unfold roundMagnitude
  rw [hu]
  have hm : ((2 ^ 23 : ℤ) : α) * (2 : α) ^ ((0 : ℤ) - 23) = (2 : α) ^ (0 : ℤ) :=
    two_pow_23_mul 0
  rw [zero_sub, zpow_zero] at hm
  have hq : (1 : α) / (2 : α) ^ (-23 : ℤ) = ((2 ^ 23 : ℤ) : α) := by
    rw [div_eq_iff (by positivity)]
    exact hm.symm
  rw [hq, roundHalfEven_intCast]
  exact hm

theorem abs_fround_le {x b : α} (h : |x| ≤ b) : |Math.fround x| ≤ Math.fround b := by
  rw [abs_le] at h ⊢
  constructor
  · rw [← fround_neg]
    exact fround_mono h.1
  · exact fround_mono h.2

theorem roundHalfEven_eq_of_near (r : α) (n : ℤ) (h1 : (n : α) - 1 / 2 < r)
    (h2 : r < (n : α) + 1 / 2) : roundHalfEven r = n := by
  rcases lt_or_le r (n : α) with hlt | hle
  · have hf : ⌊r⌋ = n - 1 := by
      rw [Int.floor_eq_iff]
      push_cast
      constructor <;> linarith
    unfold roundHalfEven
    rw [hf]
    push_cast
    rw [if_neg (by linarith), if_pos (by linarith)]
    ring
  · have hf : ⌊r⌋ = n := by
      rw [Int.floor_eq_iff]
      constructor <;> linarith
    unfold roundHalfEven
    rw [hf, if_pos (by linarith)]

theorem log_eq_of_bounds (x : α) (e : ℤ) (h1 : (2 : α) ^ e ≤ x) (h2 : x < (2 : α) ^ (e + 1)) :
    Int.log 2 x = e := by
  have hx : 0 < x := lt_of_lt_of_le (by positivity) h1
  have ha : e ≤ Int.log 2 x := by
    rw [← Int.zpow_le_iff_le_log (by norm_num) hx]
    simpa using h1
  have hb : Int.log 2 x < e + 1 := by
    rw [← Int.lt_zpow_iff_log_lt (by norm_num) hx]
    simpa using h2
  omega

/-- Evaluation of `Math.fround` at a positive value of a known binade. -/
theorem fround_eq_of_near (x : α) (e n : ℤ) (he : -126 ≤ e) (h1 : (2 : α) ^ e ≤ x)
    (h2 : x < (2 : α) ^ (e + 1)) (h3 : (n : α) - 1 / 2 < x / (2 : α) ^ (e - 23))
    (h4 : x / (2 : α) ^ (e - 23) < (n : α) + 1 / 2) :
    Math.fround x = (n : α) * (2 : α) ^ (e - 23) := by
  have hx : 0 < x := lt_of_lt_of_le (by positivity) h1
  have hu : ulp32 x = (2 : α) ^ (e - 23) := by
    unfold ulp32
    rw [log_eq_of_bounds x e h1 h2, max_eq_left he]
  rw [fround_of_nonneg (le_of_lt hx)]
  unfold roundMagnitude
  rw [hu, roundHalfEven_eq_of_near _ n h3 h4]

end Rounding

/-! ## The loop -/

theorem getElem?_store3 [LinearOrderedField α] [FloorRing α] (l : List α) (i : Nat)
    (x y z : α) (j : Nat) :
    (((Float32Array.store l (i * 3) x).store (i * 3 + 1) y).store (i * 3 + 2) z)[j]? =
      if j < l.length ∧ j / 3 = i then
        some (Math.fround (match j % 3 with | 0 => x | 1 => y | _ => z))
      else l[j]? := by
  simp only [Float32Array.store, List.getElem?_set, List.length_set]
  by_cases h0 : i * 3 = j
  · subst h0
    have h1 : i * 3 / 3 = i := by omega
    have h2 : i * 3 % 3 = 0 := by omega
    by_cases hl : i * 3 < l.length
    · simp [h1, h2, hl]
    · have : l[i * 3]? = none := List.getElem?_eq_none (by omega)
      simp [hl, this]
  · by_cases h1 : i * 3 + 1 = j
    · subst h1
      have h1 : (i * 3 + 1) / 3 = i := by omega
      have h2 : (i * 3 + 1) % 3 = 1 := by omega
      by_cases hl : i * 3 + 1 < l.length
      · simp [h1, h2, hl]
      · have : l[i * 3 + 1]? = none := List.getElem?_eq_none (by omega)
        simp [hl, this]
    · by_cases h2 : i * 3 + 2 = j
      · subst h2
        have h1 : (i * 3 + 2) / 3 = i := by omega
        have h2 : (i * 3 + 2) % 3 = 2 := by omega
        by_cases hl : i * 3 + 2 < l.length
        · simp [h1, h2, hl]
        · have : l[i * 3 + 2]? = none := List.getElem?_eq_none (by omega)
          simp [hl, this]
      · have h3 : ¬ (j / 3 = i) := by omega
        simp [h0, h1, h2, h3]

section Loop

variable [LinearOrderedField α] [FloorRing α]

/-- The loop run for the first `n + 1` indices is the body at `n` after the loop
for the first `n`. -/
theorem foldl_loopBody_succ (env : Env α) (params : Parameters α) (cI cO : Color α)
    (st : LoopState α) (n : Nat) :
    (List.range (n + 1)).foldl (loopBody env params cI cO) st =
      loopBody env params cI cO ((List.range n).foldl (loopBody env params cI cO) st) n := by
  rw [List.range_succ, List.foldl_append]
  rfl

theorem foldl_loopBody_random (env : Env α) (params : Parameters α) (cI cO : Color α)
    (st : LoopState α) (n : Nat) :
    ((List.range n).foldl (loopBody env params cI cO) st).random =
      fun k => st.random (k + 7 * n) := by
  induction n with
  | zero => rfl
  | succ n ih =>
    rw [foldl_loopBody_succ]
    funext k
    simp only [loopBody, Math.random, ih]
    congr 1
    omega

theorem foldl_loopBody_positions (env : Env α) (params : Parameters α) (cI cO : Color α)
    (st : LoopState α) (n j : Nat) :
    ((List.range n).foldl (loopBody env params cI cO) st).positions[j]? =
      if j < st.positions.length ∧ j < n * 3 then
        some (Math.fround (positionAt env params st.random (j / 3) (j % 3)))
      else st.positions[j]? := by
  induction n with
  | zero => simp
  | succ n ih =>
    have hlen : ∀ m, ((List.range m).foldl (loopBody env params cI cO) st).positions.length
        = st.positions.length := by
      intro m
      induction m with
      | zero => rfl
      | succ m ihm => rw [foldl_loopBody_succ]; simpa [loopBody, Float32Array.store] using ihm
    rw [foldl_loopBody_succ]
    have hr := foldl_loopBody_random env params cI cO st n
    simp only [loopBody, Math.random, getElem?_store3, hr, hlen, ih]
    by_cases hj : j / 3 = n
    · have h1 : ¬ j < n * 3 := by omega
      have h2 : j < (n + 1) * 3 := by omega
      by_cases hl : j < st.positions.length
      · have h3 : j % 3 = 0 ∨ j % 3 = 1 ∨ j % 3 = 2 := by omega
        rcases h3 with h3 | h3 | h3 <;>
          simp [hj, h1, h2, hl, h3, positionAt, radiusAt, Nat.mul_comm 7 n, Nat.add_comm]
      · simp [hl]
    · by_cases hl : j < st.positions.length
      · by_cases h1 : j < n * 3
        · have h2 : j < (n + 1) * 3 := by omega
          simp [hj, hl, h1, h2]
        · have h2 : ¬ j < (n + 1) * 3 := by omega
          simp [hj, hl, h1, h2]
      · simp [hl]

theorem foldl_loopBody_colors (env : Env α) (params : Parameters α)
    (st : LoopState α) (n j : Nat) :
    ((List.range n).foldl (loopBody env params (Color.new env params.insideColor)
        (Color.new env params.outsideColor)) st).colors[j]? =
      if j < st.colors.length ∧ j < n * 3 then
        some (Math.fround (colorAt env params st.random (j / 3) (j % 3)))
      else st.colors[j]? := by
  induction n with
  | zero => simp
  | succ n ih =>
    have hlen : ∀ m, ((List.range m).foldl (loopBody env params
        (Color.new env params.insideColor) (Color.new env params.outsideColor)) st).colors.length
        = st.colors.length := by
      intro m
      induction m with
      | zero => rfl
      | succ m ihm => rw [foldl_loopBody_succ]; simpa [loopBody, Float32Array.store] using ihm
    rw [foldl_loopBody_succ]
    have hr := foldl_loopBody_random env params (Color.new env params.insideColor)
      (Color.new env params.outsideColor) st n
    simp only [loopBody, Math.random, getElem?_store3, hr, hlen, ih, Nat.add_zero]
    by_cases hj : j / 3 = n
    · have h1 : ¬ j < n * 3 := by omega
      have h2 : j < (n + 1) * 3 := by omega
      by_cases hl : j < st.colors.length
      · have h3 : j % 3 = 0 ∨ j % 3 = 1 ∨ j % 3 = 2 := by omega
        rcases h3 with h3 | h3 | h3 <;>
          simp [hj, h1, h2, hl, h3, colorAt, alphaAt, radiusAt, Color.lerp, Color.clone, Color.channel,
            Nat.mul_comm 7 n]
      · simp [hl]
    · by_cases hl : j < st.colors.length
      · by_cases h1 : j < n * 3
        · have h2 : j < (n + 1) * 3 := by omega
          simp [hj, hl, h1, h2]
        · have h2 : ¬ j < (n + 1) * 3 := by omega
          simp [hj, hl, h1, h2]
      · simp [hl]

theorem populate_positions_length (env : Env α) (params : Parameters α) (cI cO : Color α)
    (st : LoopState α) :
    (populate env params cI cO st).positions.length = st.positions.length := by
  unfold populate
  induction params.count with
  | zero => rfl
  | succ m ihm => rw [foldl_loopBody_succ]; simpa [loopBody, Float32Array.store] using ihm

theorem populate_colors_length (env : Env α) (params : Parameters α) (cI cO : Color α)
    (st : LoopState α) :
    (populate env params cI cO st).colors.length = st.colors.length := by
  unfold populate
  induction params.count with
  | zero => rfl
  | succ m ihm => rw [foldl_loopBody_succ]; simpa [loopBody, Float32Array.store] using ihm

/-- Whatever the arrays hold at loop entry, the loop leaves the same contents in
every array of `count * 3` elements. -/
theorem populate_overwrites (env : Env α) (params : Parameters α)
    (st st' : LoopState α) (hr : st.random = st'.random)
    (hp : st.positions.length = params.count * 3) (hp' : st'.positions.length = params.count * 3)
    (hc : st.colors.length = params.count * 3) (hc' : st'.colors.length = params.count * 3) :
    (populate env params (Color.new env params.insideColor)
        (Color.new env params.outsideColor) st).positions =
      (populate env params (Color.new env params.insideColor)
        (Color.new env params.outsideColor) st').positions ∧
    (populate env params (Color.new env params.insideColor)
        (Color.new env params.outsideColor) st).colors =
      (populate env params (Color.new env params.insideColor)
        (Color.new env params.outsideColor) st').colors := by
  constructor
  · apply List.ext_getElem?
    intro j
    simp only [populate, foldl_loopBody_positions, hp, hp', hr]
    by_cases hj : j < params.count * 3
    · simp [hj]
    · have h1 : st.positions[j]? = none := List.getElem?_eq_none (by omega)
      have h2 : st'.positions[j]? = none := List.getElem?_eq_none (by omega)
      simp [hj, h1, h2]
  · apply List.ext_getElem?
    intro j
    simp only [populate, foldl_loopBody_colors, hc, hc', hr]
    by_cases hj : j < params.count * 3
    · simp [hj]
    · have h1 : st.colors[j]? = none := List.getElem?_eq_none (by omega)
      have h2 : st'.colors[j]? = none := List.getElem?_eq_none (by omega)
      simp [hj, h1, h2]

theorem buildBuffers_positions_length (env : Env α) (params : Parameters α) (random : Nat → α) :
    (buildBuffers env params random).positions.length = 3 * params.count := by
  simp [buildBuffers, populate_positions_length, Float32Array.new, Nat.mul_comm]

theorem buildBuffers_colors_length (env : Env α) (params : Parameters α) (random : Nat → α) :
    (buildBuffers env params random).colors.length = 3 * params.count := by
  simp [buildBuffers, populate_colors_length, Float32Array.new, Nat.mul_comm]

theorem buildBuffers_positions_getElem? (env : Env α) (params : Parameters α)
    (random : Nat → α) (i k : Nat) (hi : i < params.count) (hk : k < 3) :
    (buildBuffers env params random).positions[3 * i + k]? =
      some (Math.fround (positionAt env params random i k)) := by
  have h1 : (3 * i + k) / 3 = i := by omega
  have h2 : (3 * i + k) % 3 = k := by omega
  have h3 : 3 * i + k < params.count * 3 := by omega
  simp [buildBuffers, populate, foldl_loopBody_positions, Float32Array.new, h1, h2, h3]

theorem buildBuffers_colors_getElem? (env : Env α) (params : Parameters α)
    (random : Nat → α) (i k : Nat) (hi : i < params.count) (hk : k < 3) :
    (buildBuffers env params random).colors[3 * i + k]? =
      some (Math.fround (colorAt env params random i k)) := by
  have h1 : (3 * i + k) / 3 = i := by omega
  have h2 : (3 * i + k) % 3 = k := by omega
  have h3 : 3 * i + k < params.count * 3 := by omega
  simp [buildBuffers, populate, foldl_loopBody_colors, Float32Array.new, h1, h2, h3]

theorem buildBuffers_random (env : Env α) (params : Parameters α) (random : Nat → α) :
    (buildBuffers env params random).random = fun k => random (k + 7 * params.count) := by
  simp [buildBuffers, populate, foldl_loopBody_random]

end Loop

/-! ## One call of `generateGalaxy` -/

theorem generateUUID_snd (random : Nat → α) :
    (generateUUID random).2 = fun n => random (n + 4) := rfl

theorem destroyOldMesh_of_wellFormed (s : GalaxyState α) (h : s.WellFormed) :
    ∃ t, destroyOldMesh s = some t ∧ t.random = s.random ∧ t.nextId = s.nextId := by
  unfold destroyOldMesh
  cases hp : s.particles with
  | none => exact ⟨s, rfl, rfl, rfl⟩
  | some particles =>
    have hw := h (by simp [hp])
    cases hg : s.geometry with
    | none => exact absurd hg hw.1
    | some geometry =>
      cases hm : s.material with
      | none => exact absurd hm hw.2
      | some material => exact ⟨_, rfl, rfl, rfl⟩

theorem initial_wellFormed (random : Nat → α) : (GalaxyState.initial random).WellFormed := by
  intro h
  exact absurd rfl h

theorem sampleInstalled_wellFormed (random : Nat → α) (size : α) :
    (GalaxyState.sampleInstalled random size).WellFormed := by
  intro _
  exact ⟨by simp [GalaxyState.sampleInstalled], by simp [GalaxyState.sampleInstalled]⟩

theorem alphaAt_eq [LinearOrderedField α] (params : Parameters α) (random : Nat → α) (i : Nat)
    (hR : params.radius ≠ 0) : alphaAt params random i = random (7 * i) := by
  simp [alphaAt, radiusAt, hR]

theorem channel_in_unit [LinearOrderedField α] (c : Color α) (h : c.InUnit) (k : Nat) :
    0 ≤ c.channel k ∧ c.channel k ≤ 1 := by
  unfold Color.channel
  split
  · exact h.1
  · exact h.2.1
  · exact h.2.2

section Generate

variable [LinearOrderedField α] [FloorRing α]

theorem createMesh_buffer_position (env : Env α) (params : Parameters α) (s : GalaxyState α) :
    (createMesh env params s).buffer "position" =
      (buildBuffers env params (fun n => s.random (n + 4))).positions := by
  simp [createMesh, GalaxyState.buffer, BufferGeometry.setAttribute,
    BufferGeometry.getAttribute, List.find?, generateUUID_snd]

theorem createMesh_buffer_color (env : Env α) (params : Parameters α) (s : GalaxyState α) :
    (createMesh env params s).buffer "color" =
      (buildBuffers env params (fun n => s.random (n + 4))).colors := by
  simp [createMesh, GalaxyState.buffer, BufferGeometry.setAttribute,
    BufferGeometry.getAttribute, List.find?, generateUUID_snd]

/-- From a well-formed state the call returns, and the two attribute arrays are
the buffers built from the parameters and the random stream left by the uuid of
the geometry. -/
theorem generateGalaxy_buffers (env : Env α) (params : Parameters α) (s : GalaxyState α)
    (h : s.WellFormed) :
    ∃ t, generateGalaxy env params s = some t ∧
      t.buffer "position" = (buildBuffers env params (fun n => s.random (n + 4))).positions ∧
      t.buffer "color" = (buildBuffers env params (fun n => s.random (n + 4))).colors := by
  obtain ⟨u, hu, hr, -⟩ := destroyOldMesh_of_wellFormed s h
  refine ⟨createMesh env params u, by simp [generateGalaxy, hu], ?_, ?_⟩
  · rw [createMesh_buffer_position, hr]
  · rw [createMesh_buffer_color, hr]

/-- C1: for every parameter store, a call of `generateGalaxy` from a well-formed
state returns with a position array and a colour array of length `3 * count`
each; whatever arrays of that length the loop starts from (on the stream the
geometry's uuid leaves), it leaves exactly these contents, so every index is
written by the loop; and `count = 0` yields two empty arrays. -/
theorem generateGalaxy_buffers_filled (env : Env α) (params : Parameters α)
    (s : GalaxyState α) (h : s.WellFormed) :
    ∃ t, generateGalaxy env params s = some t ∧
      (t.buffer "position").length = 3 * params.count ∧
      (t.buffer "color").length = 3 * params.count ∧
      (∀ positions colors : Float32Array α,
        positions.length = params.count * 3 → colors.length = params.count * 3 →
        (populate env params (Color.new env params.insideColor)
          (Color.new env params.outsideColor)
          { positions := positions, colors := colors,
            random := fun n => s.random (n + 4) }).positions
            = t.buffer "position" ∧
        (populate env params (Color.new env params.insideColor)
          (Color.new env params.outsideColor)
          { positions := positions, colors := colors,
            random := fun n => s.random (n + 4) }).colors
            = t.buffer "color") ∧
      (params.count = 0 → t.buffer "position" = [] ∧ t.buffer "color" = []) := by
  obtain ⟨t, ht, hp, hc⟩ := generateGalaxy_buffers env params s h
  have hlp := buildBuffers_positions_length env params (fun n => s.random (n + 4))
  have hlc := buildBuffers_colors_length env params (fun n => s.random (n + 4))
  refine ⟨t, ht, by rw [hp, hlp], by rw [hc, hlc], ?_, ?_⟩
  · intro positions colors hpl hcl
    rw [hp, hc]
    exact populate_overwrites env params _ _ rfl hpl (by simp [Float32Array.new])
      hcl (by simp [Float32Array.new])
  · intro h0
    rw [hp, hc]
    constructor
    · apply List.eq_nil_of_length_eq_zero
      rw [hlp, h0]
    · apply List.eq_nil_of_length_eq_zero
      rw [hlc, h0]

/-- Witness of C1 at the initial store and the initial state over the reals. -/
theorem generateGalaxy_buffers_filled_witness :
    (GalaxyState.initial (fun _ => (1 / 2 : ℝ))).WellFormed ∧
    ∃ t, generateGalaxy (Env.mk Real.cos Real.sin Real.rpow Real.pi sampleColor
          (fun _ _ _ _ => [])) parameters (GalaxyState.initial (fun _ => (1 / 2 : ℝ))) = some t ∧
      (t.buffer "position").length = 300000 ∧
      (t.buffer "color").length = 300000 :=
  ⟨initial_wellFormed _,
    (generateGalaxy_buffers_filled (Env.mk Real.cos Real.sin Real.rpow Real.pi sampleColor
      (fun _ _ _ _ => [])) parameters (GalaxyState.initial (fun _ => (1 / 2 : ℝ)))
      (initial_wellFormed _)).imp (fun _ ht => ⟨ht.1, ht.2.1, ht.2.2.1⟩)⟩

/-- C2: with both colours having all channels in `[0, 1]`, `parameters.radius > 0`
and every random draw in `[0, 1)`, a call of `generateGalaxy` returns and, for every
particle `i < count` and channel `k < 3`, the interpolation factor
`radius / parameters.radius` lies in `[0, 1)` with no clamping, the value assigned to
`colors[3 * i + k]` is `inside + (outside - inside) * factor`, which is the convex
combination `(1 - factor) * inside + factor * outside` and lies in `[0, 1]`, and the
array holds its float32 rounding, which lies in `[0, 1]` too. -/
theorem generateGalaxy_colors_in_unit (env : Env α) (params : Parameters α)
    (s : GalaxyState α) (h : s.WellFormed)
    (hin : (Color.new env params.insideColor).InUnit)
    (hout : (Color.new env params.outsideColor).InUnit)
    (hR : 0 < params.radius) (hd : ∀ n, 0 ≤ s.random n ∧ s.random n < 1) :
    ∃ t, generateGalaxy env params s = some t ∧
      ∀ i k, i < params.count → k < 3 →
        (0 ≤ alphaAt params (fun n => s.random (n + 4)) i ∧
          alphaAt params (fun n => s.random (n + 4)) i < 1) ∧
        (t.buffer "color")[3 * i + k]? =
          some (Math.fround (colorAt env params (fun n => s.random (n + 4)) i k)) ∧
        colorAt env params (fun n => s.random (n + 4)) i k =
          (1 - alphaAt params (fun n => s.random (n + 4)) i)
              * (Color.new env params.insideColor).channel k
            + alphaAt params (fun n => s.random (n + 4)) i
              * (Color.new env params.outsideColor).channel k ∧
        (0 ≤ colorAt env params (fun n => s.random (n + 4)) i k ∧
          colorAt env params (fun n => s.random (n + 4)) i k ≤ 1) ∧
        (0 ≤ Math.fround (colorAt env params (fun n => s.random (n + 4)) i k) ∧
          Math.fround (colorAt env params (fun n => s.random (n + 4)) i k) ≤ 1) := by
  obtain ⟨t, ht, -, hc⟩ := generateGalaxy_buffers env params s h
  refine ⟨t, ht, ?_⟩
  intro i k hi hk
  have ha : alphaAt params (fun n => s.random (n + 4)) i = s.random (7 * i + 4) :=
    alphaAt_eq params (fun n => s.random (n + 4)) i (ne_of_gt hR)
  obtain ⟨ha0, ha1⟩ := hd (7 * i + 4)
  obtain ⟨hi0, hi1⟩ := channel_in_unit _ hin k
  obtain ⟨ho0, ho1⟩ := channel_in_unit _ hout k
  have hconv : colorAt env params (fun n => s.random (n + 4)) i k =
      (1 - alphaAt params (fun n => s.random (n + 4)) i)
          * (Color.new env params.insideColor).channel k
        + alphaAt params (fun n => s.random (n + 4)) i
          * (Color.new env params.outsideColor).channel k := by
    unfold colorAt
    ring
  have hc0 : 0 ≤ colorAt env params (fun n => s.random (n + 4)) i k := by
    rw [hconv, ha]
    have h1 : 0 ≤ 1 - s.random (7 * i + 4) := by linarith
    positivity
  have hc1 : colorAt env params (fun n => s.random (n + 4)) i k ≤ 1 := by
    rw [hconv, ha]
    have h1 : 0 ≤ 1 - s.random (7 * i + 4) := by linarith
    nlinarith [mul_le_mul_of_nonneg_left hi1 h1, mul_le_mul_of_nonneg_left ho1 ha0]
  refine ⟨by rw [ha]; exact ⟨ha0, ha1⟩, ?_, hconv, ⟨hc0, hc1⟩, ?_, ?_⟩
  · rw [hc]
    exact buildBuffers_colors_getElem? env params _ i k hi hk
  · have := fround_mono hc0
    rwa [fround_zero] at this
  · have := fround_mono hc1
    rwa [fround_one] at this

theorem sampleColor_inUnit (style : String) :
    (Color.new (Env.mk Real.cos Real.sin Real.rpow Real.pi sampleColor
      (fun _ _ _ _ => [])) style).InUnit := by
  unfold Color.InUnit Color.new sampleColor
  by_cases hs : style = "#ff6030"
  · simp only [hs, if_true]
    norm_num
  · simp only [hs, if_false]
    norm_num

/-- Witness of C2 at the initial store, the initial state and the constant stream
of draws `1 / 2`. -/
theorem generateGalaxy_colors_in_unit_witness :
    (GalaxyState.initial (fun _ => (1 / 2 : ℝ))).WellFormed ∧
    (0 : ℝ) < (parameters : Parameters ℝ).radius ∧
    (∀ n : Nat, (0 : ℝ) ≤ (GalaxyState.initial (fun _ => (1 / 2 : ℝ))).random n ∧
      (GalaxyState.initial (fun _ => (1 / 2 : ℝ))).random n < 1) ∧
    ∃ t, generateGalaxy (Env.mk Real.cos Real.sin Real.rpow Real.pi sampleColor
          (fun _ _ _ _ => [])) parameters (GalaxyState.initial (fun _ => (1 / 2 : ℝ))) = some t ∧
      ∀ i k, i < 100000 → k < 3 → ∃ c, (t.buffer "color")[3 * i + k]? = some c ∧
        0 ≤ c ∧ c ≤ 1 :=
  ⟨initial_wellFormed _, by norm_num [parameters],
    fun _ => by norm_num [GalaxyState.initial],
    (generateGalaxy_colors_in_unit (Env.mk Real.cos Real.sin Real.rpow Real.pi sampleColor
      (fun _ _ _ _ => [])) parameters (GalaxyState.initial (fun _ => (1 / 2 : ℝ)))
      (initial_wellFormed _) (sampleColor_inUnit _) (sampleColor_inUnit _)
      (by norm_num [parameters]) (fun _ => by norm_num [GalaxyState.initial])).imp
      (fun _ ht => ⟨ht.1, fun i k hi hk =>
        ⟨_, (ht.2 i k hi hk).2.1, (ht.2 i k hi hk).2.2.2.2⟩⟩)⟩

/-- C6: two calls of `generateGalaxy` with the same parameter store and the same
stream of random draws return the same position array and the same colour array,
whatever the geometry, material, point cloud, scene and log were before each call. -/
theorem generateGalaxy_deterministic (env : Env α) (params : Parameters α)
    (s₁ s₂ : GalaxyState α) (h₁ : s₁.WellFormed) (h₂ : s₂.WellFormed)
    (hr : s₁.random = s₂.random) :
    ∃ t₁ t₂, generateGalaxy env params s₁ = some t₁ ∧ generateGalaxy env params s₂ = some t₂ ∧
      t₁.buffer "position" = t₂.buffer "position" ∧
      t₁.buffer "color" = t₂.buffer "color" := by
  obtain ⟨t₁, ht₁, hp₁, hc₁⟩ := generateGalaxy_buffers env params s₁ h₁
  obtain ⟨t₂, ht₂, hp₂, hc₂⟩ := generateGalaxy_buffers env params s₂ h₂
  exact ⟨t₁, t₂, ht₁, ht₂, by rw [hp₁, hp₂, hr], by rw [hc₁, hc₂, hr]⟩

/-- Witness of C6: the initial state against a state with an installed mesh. -/
theorem generateGalaxy_deterministic_witness :
    (GalaxyState.initial (fun _ => (1 / 2 : ℝ))).WellFormed ∧
    (GalaxyState.sampleInstalled (fun _ => (1 / 2 : ℝ)) 1).WellFormed ∧
    (GalaxyState.initial (fun _ => (1 / 2 : ℝ))).random
      = (GalaxyState.sampleInstalled (fun _ => (1 / 2 : ℝ)) 1).random ∧
    ∃ t₁ t₂,
      generateGalaxy (Env.mk Real.cos Real.sin Real.rpow Real.pi sampleColor
        (fun _ _ _ _ => [])) parameters (GalaxyState.initial (fun _ => (1 / 2 : ℝ)))
        = some t₁ ∧
      generateGalaxy (Env.mk Real.cos Real.sin Real.rpow Real.pi sampleColor
        (fun _ _ _ _ => [])) parameters (GalaxyState.sampleInstalled (fun _ => (1 / 2 : ℝ)) 1)
        = some t₂ ∧
      t₁.buffer "position" = t₂.buffer "position" ∧
      t₁.buffer "color" = t₂.buffer "color" :=
  ⟨initial_wellFormed _, sampleInstalled_wellFormed _ _, rfl,
    generateGalaxy_deterministic _ _ _ _ (initial_wellFormed _)
      (sampleInstalled_wellFormed _ _) rfl⟩

end Generate

/-! ## Branch angles over the reals -/

theorem branchAngle_real (color : String → ℝ × ℝ × ℝ) (proj : ℝ → ℝ → ℝ → ℝ → List ℝ)
    (params : Parameters ℝ) (i : Nat) :
    branchAngle (Env.mk Real.cos Real.sin Real.rpow Real.pi color proj) params i =
      ((i % params.branches : Nat) : ℝ) * (2 * Real.pi / (params.branches : ℝ)) := by
  simp only [branchAngle]
  ring

theorem window_hits_residue (b start k : Nat) (hk : k < b) :
    ∃ j, j < b ∧ (start + j) % b = k := by
  have hb : 0 < b := by omega
  refine ⟨(k + (b - start % b)) % b, Nat.mod_lt _ hb, ?_⟩
  have hr : start % b < b := Nat.mod_lt _ hb
  calc (start + (k + (b - start % b)) % b) % b
      = (start % b + (k + (b - start % b))) % b :=
        Nat.ModEq.add (Nat.mod_modEq start b).symm (Nat.mod_modEq _ b)
    _ = (k + b) % b := by
        congr 1
        omega
    _ = k := by
        rw [Nat.add_mod_right, Nat.mod_eq_of_lt hk]

theorem window_residue_injective (b start j₁ j₂ : Nat) (h₁ : j₁ < b) (h₂ : j₂ < b)
    (h : (start + j₁) % b = (start + j₂) % b) : j₁ = j₂ := by
  have h3 : j₁ ≡ j₂ [MOD b] := Nat.ModEq.add_left_cancel' start h
  have h4 : j₁ % b = j₂ % b := h3
  rwa [Nat.mod_eq_of_lt h₁, Nat.mod_eq_of_lt h₂] at h4

/-- C5: for `branches = b ≥ 1` and every index `i`, `branchAngle` is
`(i mod b) * (2π / b)`; over any `b` consecutive indices `start, …, start + b - 1`
every value `k * (2π / b)` with `k < b` occurs, each angle is one of these values,
and the `b` angles are pairwise distinct; indices congruent mod `b` get the same
angle. -/
theorem branchAngle_evenly_spaced (color : String → ℝ × ℝ × ℝ)
    (proj : ℝ → ℝ → ℝ → ℝ → List ℝ) (params : Parameters ℝ) (hb : 1 ≤ params.branches) :
    (∀ i, branchAngle (Env.mk Real.cos Real.sin Real.rpow Real.pi color proj) params i =
      ((i % params.branches : Nat) : ℝ) * (2 * Real.pi / (params.branches : ℝ))) ∧
    (∀ start k, k < params.branches → ∃ j, j < params.branches ∧
      branchAngle (Env.mk Real.cos Real.sin Real.rpow Real.pi color proj) params (start + j) =
        (k : ℝ) * (2 * Real.pi / (params.branches : ℝ))) ∧
    (∀ start j, j < params.branches → ∃ k, k < params.branches ∧
      branchAngle (Env.mk Real.cos Real.sin Real.rpow Real.pi color proj) params (start + j) =
        (k : ℝ) * (2 * Real.pi / (params.branches : ℝ))) ∧
    (∀ start j₁ j₂, j₁ < params.branches → j₂ < params.branches →
      branchAngle (Env.mk Real.cos Real.sin Real.rpow Real.pi color proj) params (start + j₁) =
        branchAngle (Env.mk Real.cos Real.sin Real.rpow Real.pi color proj) params (start + j₂) →
      j₁ = j₂) ∧
    (∀ i j, i % params.branches = j % params.branches →
      branchAngle (Env.mk Real.cos Real.sin Real.rpow Real.pi color proj) params i =
        branchAngle (Env.mk Real.cos Real.sin Real.rpow Real.pi color proj) params j) := by
  have hb0 : 0 < params.branches := hb
  have hbR : (0 : ℝ) < (params.branches : ℝ) := by exact_mod_cast hb0
  have hc : (2 * Real.pi / (params.branches : ℝ)) ≠ 0 :=
    ne_of_gt (div_pos (by positivity) hbR)
  refine ⟨fun i => branchAngle_real color proj params i, ?_, ?_, ?_, ?_⟩
  · intro start k hk
    obtain ⟨j, hj, hjk⟩ := window_hits_residue params.branches start k hk
    exact ⟨j, hj, by rw [branchAngle_real, hjk]⟩
  · intro start j _
    exact ⟨(start + j) % params.branches, Nat.mod_lt _ hb0, branchAngle_real color proj params _⟩
  · intro start j₁ j₂ h₁ h₂ h
    rw [branchAngle_real, branchAngle_real] at h
    have h' := mul_right_cancel₀ hc h
    exact window_residue_injective params.branches start j₁ j₂ h₁ h₂ (by exact_mod_cast h')
  · intro i j hij
    rw [branchAngle_real, branchAngle_real, hij]

/-- Witness of C5 at the initial store (three branches). -/
theorem branchAngle_evenly_spaced_witness :
    1 ≤ (parameters : Parameters ℝ).branches ∧
    (∀ i, branchAngle (Env.mk Real.cos Real.sin Real.rpow Real.pi sampleColor
        (fun _ _ _ _ => [])) parameters i =
      ((i % (parameters : Parameters ℝ).branches : Nat) : ℝ)
        * (2 * Real.pi / ((parameters : Parameters ℝ).branches : ℝ))) :=
  ⟨by decide,
    (branchAngle_evenly_spaced sampleColor (fun _ _ _ _ => []) parameters (by decide)).1⟩

/-! ## Positions over the reals -/

theorem randomOffset_zero_draw (color : String → ℝ × ℝ × ℝ)
    (proj : ℝ → ℝ → ℝ → ℝ → List ℝ) (params : Parameters ℝ) (v : ℝ)
    (hp : params.randomnessPower ≠ 0) :
    randomOffset (Env.mk Real.cos Real.sin Real.rpow Real.pi color proj) params 0 v = 0 := by
  simp [randomOffset, Real.zero_rpow hp]

/-- C7, as amended: for a particle whose index `i` is a multiple of `branches ≥ 1`,
with `spin = 0` and the three random offsets equal to zero, `branchAngle` is `0`
and the position stored by `generateGalaxy` is `(fround radius_i, 0, 0)`: the
particle's random radius `radius_i = draw * parameters.radius` rounded to float32,
where the draw is the one at index `7 * i + 4` of the stream at the start of the
call (the geometry's uuid takes the first four draws). -/
theorem generateGalaxy_on_axis (color : String → ℝ × ℝ × ℝ)
    (proj : ℝ → ℝ → ℝ → ℝ → List ℝ) (params : Parameters ℝ) (s : GalaxyState ℝ)
    (h : s.WellFormed) (i : Nat) (hi : i < params.count)
    (hb0 : 0 < params.branches) (hb : params.branches ∣ i) (hspin : params.spin = 0)
    (hx : randomOffset (Env.mk Real.cos Real.sin Real.rpow Real.pi color proj) params
      (s.random (7 * i + 5)) (s.random (7 * i + 6)) = 0)
    (hy : randomOffset (Env.mk Real.cos Real.sin Real.rpow Real.pi color proj) params
      (s.random (7 * i + 7)) (s.random (7 * i + 8)) = 0)
    (hz : randomOffset (Env.mk Real.cos Real.sin Real.rpow Real.pi color proj) params
      (s.random (7 * i + 9)) (s.random (7 * i + 10)) = 0) :
    branchAngle (Env.mk Real.cos Real.sin Real.rpow Real.pi color proj) params i = 0 ∧
    ∃ t, generateGalaxy (Env.mk Real.cos Real.sin Real.rpow Real.pi color proj) params s
        = some t ∧
      (t.buffer "position")[3 * i]? =
        some (Math.fround (s.random (7 * i + 4) * params.radius)) ∧
      (t.buffer "position")[3 * i + 1]? = some 0 ∧
      (t.buffer "position")[3 * i + 2]? = some 0 := by
  have _ := hb0
  have hangle : branchAngle (Env.mk Real.cos Real.sin Real.rpow Real.pi color proj) params i
      = 0 := by
    rw [branchAngle_real, Nat.mod_eq_zero_of_dvd hb]
    simp
  obtain ⟨t, ht, hp, -⟩ := generateGalaxy_buffers
    (Env.mk Real.cos Real.sin Real.rpow Real.pi color proj) params s h
  refine ⟨hangle, t, ht, ?_, ?_, ?_⟩
  · have := buildBuffers_positions_getElem?
      (Env.mk Real.cos Real.sin Real.rpow Real.pi color proj) params
      (fun n => s.random (n + 4)) i 0 hi (by decide)
    rw [hp, ← Nat.add_zero (3 * i), this]
    simp [positionAt, radiusAt, hangle, hspin, hx]
  · have := buildBuffers_positions_getElem?
      (Env.mk Real.cos Real.sin Real.rpow Real.pi color proj) params
      (fun n => s.random (n + 4)) i 1 hi (by decide)
    rw [hp, this]
    simp [positionAt, hy, fround_zero]
  · have := buildBuffers_positions_getElem?
      (Env.mk Real.cos Real.sin Real.rpow Real.pi color proj) params
      (fun n => s.random (n + 4)) i 2 hi (by decide)
    rw [hp, this]
    simp [positionAt, radiusAt, hangle, hspin, hz, fround_zero]

/-- Witness of C7: the scenario of the specification (count 1, radius 5, three
branches, no spin, randomness power 1), particle 0, with the radius draw `1 / 2`
and all other draws `0`; the radius `5 / 2` is a float32, so the stored position
is `(5 / 2, 0, 0)`. -/
theorem generateGalaxy_on_axis_witness :
    (0 : Nat) < (scenario : Parameters ℝ).count ∧
    0 < (scenario : Parameters ℝ).branches ∧
    (scenario : Parameters ℝ).branches ∣ 0 ∧
    (scenario : Parameters ℝ).spin = 0 ∧
    Math.fround ((GalaxyState.initial (fun n => if n = 4 then (1 / 2 : ℝ) else 0)).random
      (7 * 0 + 4) * (scenario : Parameters ℝ).radius) = 5 / 2 ∧
    ∃ t, generateGalaxy (Env.mk Real.cos Real.sin Real.rpow Real.pi sampleColor
          (fun _ _ _ _ => [])) scenario
          (GalaxyState.initial (fun n => if n = 4 then (1 / 2 : ℝ) else 0)) = some t ∧
      (t.buffer "position")[3 * 0]? = some (Math.fround
        ((GalaxyState.initial (fun n => if n = 4 then (1 / 2 : ℝ) else 0)).random (7 * 0 + 4)
          * (scenario : Parameters ℝ).radius)) ∧
      (t.buffer "position")[3 * 0 + 1]? = some 0 ∧
      (t.buffer "position")[3 * 0 + 2]? = some 0 :=
  ⟨by decide, by decide, dvd_zero _, rfl,
    by
      have h52 : (GalaxyState.initial (fun n => if n = 4 then (1 / 2 : ℝ) else 0)).random
          (7 * 0 + 4) * (scenario : Parameters ℝ).radius = 5 / 2 := by
        norm_num [GalaxyState.initial, scenario]
      rw [h52, fround_eq_of_near (5 / 2 : ℝ) 1 10485760 (by norm_num) (by norm_num)
        (by norm_num) (by norm_num) (by norm_num)]
      norm_num,
    (generateGalaxy_on_axis sampleColor (fun _ _ _ _ => []) scenario
      (GalaxyState.initial (fun n => if n = 4 then (1 / 2 : ℝ) else 0))
      (initial_wellFormed _) 0 (by decide) (by decide) (dvd_zero _) rfl
      (by simpa [GalaxyState.initial] using
          randomOffset_zero_draw sampleColor (fun _ _ _ _ => []) scenario 0
            (by norm_num [scenario]))
      (by simpa [GalaxyState.initial] using
          randomOffset_zero_draw sampleColor (fun _ _ _ _ => []) scenario 0
            (by norm_num [scenario]))
      (by simpa [GalaxyState.initial] using
          randomOffset_zero_draw sampleColor (fun _ _ _ _ => []) scenario 0
            (by norm_num [scenario]))).2⟩

/-- Counterexample to C7 as stated: in the scenario of the specification with the
radius draw `0.123` and all offsets zero, `radius_0 = 0.615`, but the array
holds `10317988 / 2 ^ 24 = 0.61500000953…`, the nearest float32. -/
theorem generateGalaxy_on_axis_rounds :
    (scenario : Parameters ℝ).branches ∣ 0 ∧
    (scenario : Parameters ℝ).spin = 0 ∧
    randomOffset (Env.mk Real.cos Real.sin Real.rpow Real.pi sampleColor (fun _ _ _ _ => []))
      scenario (0 : ℝ) 0 = 0 ∧
    ∃ t, generateGalaxy (Env.mk Real.cos Real.sin Real.rpow Real.pi sampleColor
          (fun _ _ _ _ => [])) scenario
          (GalaxyState.initial (fun n => if n = 4 then (123 / 1000 : ℝ) else 0)) = some t ∧
      (t.buffer "position")[0]? = some (10317988 / 16777216) ∧
      (10317988 / 16777216 : ℝ) ≠ 123 / 1000 * (scenario : Parameters ℝ).radius := by
  refine ⟨dvd_zero _, rfl,
    randomOffset_zero_draw sampleColor (fun _ _ _ _ => []) scenario 0 (by norm_num [scenario]),
    ?_⟩
  obtain ⟨t, ht, hp, -⟩ := generateGalaxy_buffers
    (Env.mk Real.cos Real.sin Real.rpow Real.pi sampleColor (fun _ _ _ _ => [])) scenario
    (GalaxyState.initial (fun n => if n = 4 then (123 / 1000 : ℝ) else 0)) (initial_wellFormed _)
  refine ⟨t, ht, ?_, by norm_num [scenario]⟩
  have hget := buildBuffers_positions_getElem?
    (Env.mk Real.cos Real.sin Real.rpow Real.pi sampleColor (fun _ _ _ _ => [])) scenario
    (fun n => (GalaxyState.initial (fun n => if n = 4 then (123 / 1000 : ℝ) else 0)).random
      (n + 4)) 0 0 (by decide) (by decide)
  have hval : positionAt (Env.mk Real.cos Real.sin Real.rpow Real.pi sampleColor
      (fun _ _ _ _ => [])) scenario
      (fun n => (GalaxyState.initial (fun n => if n = 4 then (123 / 1000 : ℝ) else 0)).random
        (n + 4)) 0 0 = 123 / 200 := by
    simp only [positionAt, radiusAt, branchAngle, GalaxyState.initial]
    norm_num [scenario, randomOffset_zero_draw]
  rw [hp]
  rw [hval] at hget
  rw [show (0 : Nat) = 3 * 0 + 0 from rfl, hget,
    fround_eq_of_near (123 / 200 : ℝ) (-1) 10317988 (by norm_num) (by norm_num) (by norm_num)
      (by norm_num) (by norm_num)]
  norm_num

theorem randomOffset_real (color : String → ℝ × ℝ × ℝ) (proj : ℝ → ℝ → ℝ → ℝ → List ℝ)
    (params : Parameters ℝ) (u v : ℝ) :
    randomOffset (Env.mk Real.cos Real.sin Real.rpow Real.pi color proj) params u v =
      if v < 0.5 then u ^ params.randomnessPower else -(u ^ params.randomnessPower) := by
  unfold randomOffset
  split <;> simp

theorem randomOffset_abs_le_one (color : String → ℝ × ℝ × ℝ)
    (proj : ℝ → ℝ → ℝ → ℝ → List ℝ) (params : Parameters ℝ) (u v : ℝ)
    (hp : 0 < params.randomnessPower) (hu0 : 0 ≤ u) (hu1 : u < 1) :
    |randomOffset (Env.mk Real.cos Real.sin Real.rpow Real.pi color proj) params u v| ≤ 1 := by
  have h0 : 0 ≤ u ^ params.randomnessPower := Real.rpow_nonneg hu0 _
  have h1 : u ^ params.randomnessPower ≤ 1 := Real.rpow_le_one hu0 (le_of_lt hu1) (le_of_lt hp)
  rw [randomOffset_real]
  split
  · rw [abs_of_nonneg h0]; exact h1
  · rw [abs_neg, abs_of_nonneg h0]; exact h1

/-- Bounds on the values the loop computes for particle `i` from the stream
`random` at loop entry. -/
theorem positionAt_bounds (color : String → ℝ × ℝ × ℝ)
    (proj : ℝ → ℝ → ℝ → ℝ → List ℝ) (params : Parameters ℝ) (random : Nat → ℝ)
    (hp : 0 < params.randomnessPower) (hR : 0 < params.radius)
    (hd : ∀ n, 0 ≤ random n ∧ random n < 1) (i : Nat) :
    ∃ ox oy oz ax az : ℝ,
      ox = (if random (7 * i + 2) < 0.5 then random (7 * i + 1) ^ params.randomnessPower
            else -(random (7 * i + 1) ^ params.randomnessPower)) ∧
      oy = (if random (7 * i + 4) < 0.5 then random (7 * i + 3) ^ params.randomnessPower
            else -(random (7 * i + 3) ^ params.randomnessPower)) ∧
      oz = (if random (7 * i + 6) < 0.5 then random (7 * i + 5) ^ params.randomnessPower
            else -(random (7 * i + 5) ^ params.randomnessPower)) ∧
      ax = Real.cos (branchAngle (Env.mk Real.cos Real.sin Real.rpow Real.pi color proj)
              params i + radiusAt params random i * params.spin)
            * radiusAt params random i ∧
      az = Real.sin (branchAngle (Env.mk Real.cos Real.sin Real.rpow Real.pi color proj)
              params i + radiusAt params random i * params.spin)
            * radiusAt params random i ∧
      positionAt (Env.mk Real.cos Real.sin Real.rpow Real.pi color proj) params random i 0
        = ax + ox ∧
      positionAt (Env.mk Real.cos Real.sin Real.rpow Real.pi color proj) params random i 1
        = oy ∧
      positionAt (Env.mk Real.cos Real.sin Real.rpow Real.pi color proj) params random i 2
        = az + oz ∧
      |ox| ≤ 1 ∧ |oy| ≤ 1 ∧ |oz| ≤ 1 ∧
      |ax + ox| ≤ params.radius + 1 ∧ |az + oz| ≤ params.radius + 1 ∧
      Real.sqrt ((ax + ox - ax) ^ 2 + (az + oz - az) ^ 2) ≤ Real.sqrt 2 ∧
      Real.sqrt (ax ^ 2 + az ^ 2) ≤ params.radius := by
  have hox := randomOffset_abs_le_one color proj params (random (7 * i + 1))
    (random (7 * i + 2)) hp (hd _).1 (hd _).2
  have hoy := randomOffset_abs_le_one color proj params (random (7 * i + 3))
    (random (7 * i + 4)) hp (hd _).1 (hd _).2
  have hoz := randomOffset_abs_le_one color proj params (random (7 * i + 5))
    (random (7 * i + 6)) hp (hd _).1 (hd _).2
  rw [randomOffset_real] at hox hoy hoz
  have hr0 : 0 ≤ radiusAt params random i := mul_nonneg (hd _).1 (le_of_lt hR)
  have hr1 : radiusAt params random i ≤ params.radius := by
    unfold radiusAt
    nlinarith [(hd (7 * i)).2, (hd (7 * i)).1]
  generalize hθ : branchAngle (Env.mk Real.cos Real.sin Real.rpow Real.pi color proj)
      params i + radiusAt params random i * params.spin = θ at *
  have hcos : |Real.cos θ * radiusAt params random i| ≤ params.radius := by
    rw [abs_mul, abs_of_nonneg hr0]
    calc |Real.cos θ| * radiusAt params random i
        ≤ 1 * radiusAt params random i :=
          mul_le_mul_of_nonneg_right (Real.abs_cos_le_one θ) hr0
      _ ≤ params.radius := by linarith
  have hsin : |Real.sin θ * radiusAt params random i| ≤ params.radius := by
    rw [abs_mul, abs_of_nonneg hr0]
    calc |Real.sin θ| * radiusAt params random i
        ≤ 1 * radiusAt params random i :=
          mul_le_mul_of_nonneg_right (Real.abs_sin_le_one θ) hr0
      _ ≤ params.radius := by linarith
  refine ⟨_, _, _, _, _, rfl, rfl, rfl, rfl, rfl, ?_, ?_, ?_, hox, hoy, hoz, ?_, ?_, ?_, ?_⟩
  · simp only [positionAt, randomOffset_real, hθ]
  · simp only [positionAt, randomOffset_real]
  · simp only [positionAt, randomOffset_real, hθ]
  · exact (abs_add _ _).trans (add_le_add hcos hox)
  · exact (abs_add _ _).trans (add_le_add hsin hoz)
  · apply Real.sqrt_le_sqrt
    simp only [add_sub_cancel_left]
    have h1 := sq_le_one_iff_abs_le_one _ |>.mpr hox
    have h2 := sq_le_one_iff_abs_le_one _ |>.mpr hoz
    linarith
  · apply Real.sqrt_le_iff.mpr
    refine ⟨le_of_lt hR, ?_⟩
    have h1 : (Real.cos θ * radiusAt params random i) ^ 2
        + (Real.sin θ * radiusAt params random i) ^ 2 = radiusAt params random i ^ 2 := by
      have := Real.sin_sq_add_cos_sq θ
      nlinarith
    rw [h1]
    nlinarith

/-- C10, as amended: with `branches ≥ 1`, `randomnessPower > 0`,
`parameters.radius > 0` and every random draw in `[0, 1)`, a call of
`generateGalaxy` returns and for every particle `i < count`: each random offset is
`u ^ randomnessPower` when its sign draw is below `0.5` and the negation of that
otherwise, of absolute value at most `1`; the position `(x, y, z)` the loop
computes is the on-arm point `(cos θ * radius_i, 0, sin θ * radius_i)`, with
`θ = branchAngle + spinAngle`, moved by the three offsets; `|y| ≤ 1`,
`|x| ≤ parameters.radius + 1`, `|z| ≤ parameters.radius + 1`; `(x, z)` is within
distance `√2` of the on-arm point, and the on-arm point is within distance
`parameters.radius` of the origin.  The array holds the float32 roundings of `x`,
`y`, `z`, which satisfy `|fround y| ≤ 1` and
`|fround x|, |fround z| ≤ fround (parameters.radius + 1)`.  Draw indices count from
the start of the call, the geometry's uuid taking the first four. -/
theorem generateGalaxy_position_bounds (color : String → ℝ × ℝ × ℝ)
    (proj : ℝ → ℝ → ℝ → ℝ → List ℝ) (params : Parameters ℝ) (s : GalaxyState ℝ)
    (h : s.WellFormed) (hb : 0 < params.branches) (hp : 0 < params.randomnessPower)
    (hR : 0 < params.radius) (hd : ∀ n, 0 ≤ s.random n ∧ s.random n < 1) :
    ∃ t, generateGalaxy (Env.mk Real.cos Real.sin Real.rpow Real.pi color proj) params s
        = some t ∧
      ∀ i, i < params.count →
        ∃ x y z ox oy oz ax az : ℝ,
          (t.buffer "position")[3 * i]? = some (Math.fround x) ∧
          (t.buffer "position")[3 * i + 1]? = some (Math.fround y) ∧
          (t.buffer "position")[3 * i + 2]? = some (Math.fround z) ∧
          ox = (if s.random (7 * i + 6) < 0.5 then s.random (7 * i + 5) ^ params.randomnessPower
                else -(s.random (7 * i + 5) ^ params.randomnessPower)) ∧
          oy = (if s.random (7 * i + 8) < 0.5 then s.random (7 * i + 7) ^ params.randomnessPower
                else -(s.random (7 * i + 7) ^ params.randomnessPower)) ∧
          oz = (if s.random (7 * i + 10) < 0.5 then s.random (7 * i + 9) ^ params.randomnessPower
                else -(s.random (7 * i + 9) ^ params.randomnessPower)) ∧
          ax = Real.cos (branchAngle (Env.mk Real.cos Real.sin Real.rpow Real.pi color proj)
                  params i + s.random (7 * i + 4) * params.radius * params.spin)
                * (s.random (7 * i + 4) * params.radius) ∧
          az = Real.sin (branchAngle (Env.mk Real.cos Real.sin Real.rpow Real.pi color proj)
                  params i + s.random (7 * i + 4) * params.radius * params.spin)
                * (s.random (7 * i + 4) * params.radius) ∧
          x = ax + ox ∧ y = oy ∧ z = az + oz ∧
          |ox| ≤ 1 ∧ |oy| ≤ 1 ∧ |oz| ≤ 1 ∧
          |y| ≤ 1 ∧ |x| ≤ params.radius + 1 ∧ |z| ≤ params.radius + 1 ∧
          Real.sqrt ((x - ax) ^ 2 + (z - az) ^ 2) ≤ Real.sqrt 2 ∧
          Real.sqrt (ax ^ 2 + az ^ 2) ≤ params.radius ∧
          |Math.fround y| ≤ 1 ∧
          |Math.fround x| ≤ Math.fround (params.radius + 1) ∧
          |Math.fround z| ≤ Math.fround (params.radius + 1) := by
  have _ := hb
  obtain ⟨t, ht, hpos, -⟩ := generateGalaxy_buffers
    (Env.mk Real.cos Real.sin Real.rpow Real.pi color proj) params s h
  refine ⟨t, ht, ?_⟩
  intro i hi
  have hget := fun k hk => buildBuffers_positions_getElem?
    (Env.mk Real.cos Real.sin Real.rpow Real.pi color proj) params
    (fun n => s.random (n + 4)) i k hi hk
  obtain ⟨ox, oy, oz, ax, az, hox, hoy, hoz, hax, haz, hx, hy, hz, box, boy, boz, bx, bz,
    bd, ba⟩ := positionAt_bounds color proj params (fun n => s.random (n + 4)) hp hR
      (fun n => hd (n + 4)) i
  have by1 : |Math.fround oy| ≤ 1 := by
    have := abs_fround_le boy
    rwa [fround_one] at this
  refine ⟨ax + ox, oy, az + oz, ox, oy, oz, ax, az, ?_, ?_, ?_, hox, hoy, hoz, hax, haz,
    rfl, rfl, rfl, box, boy, boz, boy, bx, bz, bd, ba, by1, abs_fround_le bx, abs_fround_le bz⟩
  · rw [hpos, ← Nat.add_zero (3 * i), hget 0 (by decide), hx]
  · rw [hpos, hget 1 (by decide), hy]
  · rw [hpos, hget 2 (by decide), hz]

/-- Witness of C10 at the initial store, the initial state and the constant stream
of draws `1 / 2`. -/
theorem generateGalaxy_position_bounds_witness :
    (GalaxyState.initial (fun _ => (1 / 2 : ℝ))).WellFormed ∧
    0 < (parameters : Parameters ℝ).branches ∧
    (0 : ℝ) < (parameters : Parameters ℝ).randomnessPower ∧
    (0 : ℝ) < (parameters : Parameters ℝ).radius ∧
    (∀ n : Nat, (0 : ℝ) ≤ (GalaxyState.initial (fun _ => (1 / 2 : ℝ))).random n ∧
      (GalaxyState.initial (fun _ => (1 / 2 : ℝ))).random n < 1) ∧
    ∃ t, generateGalaxy (Env.mk Real.cos Real.sin Real.rpow Real.pi sampleColor
          (fun _ _ _ _ => [])) parameters (GalaxyState.initial (fun _ => (1 / 2 : ℝ))) = some t ∧
      ∀ i, i < (parameters : Parameters ℝ).count → ∃ x y z : ℝ,
        (t.buffer "position")[3 * i]? = some (Math.fround x) ∧
        (t.buffer "position")[3 * i + 1]? = some (Math.fround y) ∧
        (t.buffer "position")[3 * i + 2]? = some (Math.fround z) ∧
        |y| ≤ 1 ∧ |x| ≤ (parameters : Parameters ℝ).radius + 1 ∧
        |z| ≤ (parameters : Parameters ℝ).radius + 1 ∧
        |Math.fround y| ≤ 1 ∧
        |Math.fround x| ≤ Math.fround ((parameters : Parameters ℝ).radius + 1) ∧
        |Math.fround z| ≤ Math.fround ((parameters : Parameters ℝ).radius + 1) := by
  refine ⟨initial_wellFormed _, by decide, by norm_num [parameters], by norm_num [parameters],
    fun _ => by norm_num [GalaxyState.initial], ?_⟩
  obtain ⟨t, ht, hall⟩ := generateGalaxy_position_bounds sampleColor (fun _ _ _ _ => [])
    parameters (GalaxyState.initial (fun _ => (1 / 2 : ℝ))) (initial_wellFormed _)
    (by decide) (by norm_num [parameters]) (by norm_num [parameters])
    (fun _ => by norm_num [GalaxyState.initial])
  refine ⟨t, ht, fun i hi => ?_⟩
  obtain ⟨x, y, z, _, _, _, _, _, h1, h2, h3, -, -, -, -, -, -, -, -, -, -, -, hy, hx, hz, -, -,
    fy, fx, fz⟩ := hall i hi
  exact ⟨x, y, z, h1, h2, h3, hy, hx, hz, fy, fx, fz⟩

/-- Counterexample to C10 as stated: in the store with radius `5.3`, no spin and
randomness power `1`, with every draw `0.999999999` except the sign draw of the
`x` offset (`1 / 4`), particle 0 has `x = 6.2999999937 ≤ 6.3`, but the array holds
`13212058 / 2 ^ 21 = 6.3000001907…`, the nearest float32, which exceeds
`parameters.radius + 1 = 6.3`. -/
theorem generateGalaxy_position_exceeds :
    (0 : ℝ) < (roundingStore : Parameters ℝ).randomnessPower ∧
    (0 : ℝ) < (roundingStore : Parameters ℝ).radius ∧
    (∀ n : Nat, (0 : ℝ) ≤ (if n = 6 then (1 / 4 : ℝ) else 999999999 / 1000000000) ∧
      (if n = 6 then (1 / 4 : ℝ) else 999999999 / 1000000000) < 1) ∧
    ∃ t, generateGalaxy (Env.mk Real.cos Real.sin Real.rpow Real.pi sampleColor
          (fun _ _ _ _ => [])) roundingStore
          (GalaxyState.initial
            (fun n => if n = 6 then (1 / 4 : ℝ) else 999999999 / 1000000000)) = some t ∧
      (t.buffer "position")[0]? = some (13212058 / 2097152) ∧
      (roundingStore : Parameters ℝ).radius + 1 < |(13212058 / 2097152 : ℝ)| := by
  refine ⟨by norm_num [roundingStore], by norm_num [roundingStore], ?_, ?_⟩
  · intro n
    split <;> norm_num
  obtain ⟨t, ht, hp, -⟩ := generateGalaxy_buffers
    (Env.mk Real.cos Real.sin Real.rpow Real.pi sampleColor (fun _ _ _ _ => [])) roundingStore
    (GalaxyState.initial (fun n => if n = 6 then (1 / 4 : ℝ) else 999999999 / 1000000000))
    (initial_wellFormed _)
  refine ⟨t, ht, ?_, by
    rw [abs_of_pos (by norm_num)]
    norm_num [roundingStore]⟩
  have hget := buildBuffers_positions_getElem?
    (Env.mk Real.cos Real.sin Real.rpow Real.pi sampleColor (fun _ _ _ _ => [])) roundingStore
    (fun n => (GalaxyState.initial
      (fun n => if n = 6 then (1 / 4 : ℝ) else 999999999 / 1000000000)).random (n + 4))
    0 0 (by decide) (by decide)
  have hval : positionAt (Env.mk Real.cos Real.sin Real.rpow Real.pi sampleColor
      (fun _ _ _ _ => [])) roundingStore
      (fun n => (GalaxyState.initial
        (fun n => if n = 6 then (1 / 4 : ℝ) else 999999999 / 1000000000)).random (n + 4))
      0 0 = 62999999937 / 10000000000 := by
    simp only [positionAt, radiusAt, branchAngle, randomOffset, GalaxyState.initial]
    norm_num [roundingStore]
  rw [hp]
  rw [hval] at hget
  rw [show (0 : Nat) = 3 * 0 + 0 from rfl, hget,
    fround_eq_of_near (62999999937 / 10000000000 : ℝ) 2 13212058 (by norm_num) (by norm_num)
      (by norm_num) (by norm_num) (by norm_num)]
  norm_num

/-! ## Resize listener -/

/-- C8: for a resize event with viewport width `w`, height `h > 0` and device pixel
ratio `d`, after the listener the camera aspect is `w / h`, `sizes` and the renderer
size are `w` by `h`, and the pixel ratio is `min d 2`, hence at most `2`, whatever
the state before; running the listener again on the same event changes nothing. -/
theorem onResize_spec [LinearOrderedField α] (env : Env α) (window : Window α)
    (v : ViewState α) (hh : 0 < window.innerHeight) :
    (onResize env window v).camera.aspect = window.innerWidth / window.innerHeight ∧
    (onResize env window v).sizes.width = window.innerWidth ∧
    (onResize env window v).sizes.height = window.innerHeight ∧
    (onResize env window v).renderer.width = window.innerWidth ∧
    (onResize env window v).renderer.height = window.innerHeight ∧
    (onResize env window v).renderer.pixelRatio = min window.devicePixelRatio 2 ∧
    (onResize env window v).renderer.pixelRatio ≤ 2 ∧
    (onResize env window v).camera.projectionMatrix =
      env.makePerspective v.camera.fov (window.innerWidth / window.innerHeight)
        v.camera.near v.camera.far ∧
    onResize env window (onResize env window v) = onResize env window v := by
  have _ := hh
  refine ⟨rfl, rfl, rfl, rfl, rfl, rfl, ?_, rfl, rfl⟩
  exact min_le_right _ _

/-- Witness of C8: width 800, height 600, device pixel ratio 3. -/
theorem onResize_spec_witness :
    (0 : ℝ) < (Window.mk 800 600 3 : Window ℝ).innerHeight ∧
    (onResize (Env.mk Real.cos Real.sin Real.rpow Real.pi sampleColor (fun _ _ _ _ => []))
      (Window.mk 800 600 3)
      (ViewState.mk (Sizes.mk 1024 768) (PerspectiveCamera.mk 75 (1024 / 768) 0.1 100 [])
        (WebGLRenderer.mk 1024 768 1))).camera.aspect = 800 / 600 ∧
    (onResize (Env.mk Real.cos Real.sin Real.rpow Real.pi sampleColor (fun _ _ _ _ => []))
      (Window.mk 800 600 3)
      (ViewState.mk (Sizes.mk 1024 768) (PerspectiveCamera.mk 75 (1024 / 768) 0.1 100 [])
        (WebGLRenderer.mk 1024 768 1))).renderer.width = 800 ∧
    (onResize (Env.mk Real.cos Real.sin Real.rpow Real.pi sampleColor (fun _ _ _ _ => []))
      (Window.mk 800 600 3)
      (ViewState.mk (Sizes.mk 1024 768) (PerspectiveCamera.mk 75 (1024 / 768) 0.1 100 [])
        (WebGLRenderer.mk 1024 768 1))).renderer.height = 600 ∧
    (onResize (Env.mk Real.cos Real.sin Real.rpow Real.pi sampleColor (fun _ _ _ _ => []))
      (Window.mk 800 600 3)
      (ViewState.mk (Sizes.mk 1024 768) (PerspectiveCamera.mk 75 (1024 / 768) 0.1 100 [])
        (WebGLRenderer.mk 1024 768 1))).renderer.pixelRatio ≤ 2 :=
  ⟨by norm_num,
    (onResize_spec _ _ _ (by norm_num : (0 : ℝ) < (Window.mk 800 600 3 : Window ℝ).innerHeight)).1,
    (onResize_spec _ (Window.mk 800 600 3) _ (by norm_num)).2.2.2.1,
    (onResize_spec _ (Window.mk 800 600 3) _ (by norm_num)).2.2.2.2.1,
    (onResize_spec _ (Window.mk 800 600 3) _ (by norm_num)).2.2.2.2.2.2.1⟩

/-! ## Tweak panel -/

section Panel

variable [LinearOrderedField α]

theorem parameters_inRange : (parameters : Parameters α).InRange := by
  intro f
  cases f <;> norm_num [parameters, gui, Parameters.get]

theorem commit_inRange (p q : Parameters α) (hp : p.InRange) (hc : Commit p q) :
    q.InRange := by
  cases hc with
  | count v h1 h2 =>
    intro f
    cases f
    case count => exact ⟨h1, h2⟩
    all_goals exact hp _
  | size v h1 h2 =>
    intro f
    cases f
    case size => exact ⟨h1, h2⟩
    all_goals exact hp _
  | radius v h1 h2 =>
    intro f
    cases f
    case radius => exact ⟨h1, h2⟩
    all_goals exact hp _
  | branches v h1 h2 =>
    intro f
    cases f
    case branches => exact ⟨h1, h2⟩
    all_goals exact hp _
  | spin v h1 h2 =>
    intro f
    cases f
    case spin => exact ⟨h1, h2⟩
    all_goals exact hp _
  | randomnessPower v h1 h2 =>
    intro f
    cases f
    case randomnessPower => exact ⟨h1, h2⟩
    all_goals exact hp _
  | insideColor style =>
    intro f
    cases f <;> exact hp _
  | outsideColor style =>
    intro f
    cases f <;> exact hp _

theorem reachable_inRange (p : Parameters α) (hp : Reachable p) : p.InRange := by
  induction hp with
  | refl => exact parameters_inRange
  | tail _ hc ih => exact commit_inRange _ _ ih hc

/-- C9: the initial store lies inside the ranges declared by the panel, and every
store reachable from it by panel commits lies inside them too: `count` in
`[100, 1000000]`, `size` in `[0.001, 0.1]`, `radius` in `[1, 20]`, `branches` in
`[2, 20]`, `spin` in `[-5, 5]`, `randomnessPower` in `[1, 10]`; so `generateGalaxy`
receives `randomnessPower > 0`, `radius ≠ 0` and `branches ≠ 0`. -/
theorem reachable_in_domain (p : Parameters α) (hp : Reachable p) :
    (parameters : Parameters α).InRange ∧ p.InRange ∧
    (100 ≤ p.count ∧ p.count ≤ 1000000) ∧
    (0.001 ≤ p.size ∧ p.size ≤ 0.1) ∧
    (1 ≤ p.radius ∧ p.radius ≤ 20) ∧
    (2 ≤ p.branches ∧ p.branches ≤ 20) ∧
    (-5 ≤ p.spin ∧ p.spin ≤ 5) ∧
    (1 ≤ p.randomnessPower ∧ p.randomnessPower ≤ 10) ∧
    0 < p.randomnessPower ∧ p.radius ≠ 0 ∧ p.branches ≠ 0 := by
  have h := reachable_inRange p hp
  have hcount := h NumericField.count
  have hsize := h NumericField.size
  have hradius := h NumericField.radius
  have hbranches := h NumericField.branches
  have hspin := h NumericField.spin
  have hpow := h NumericField.randomnessPower
  simp only [gui, Parameters.get] at hcount hsize hradius hbranches hspin hpow
  have hc1 : 100 ≤ p.count := by exact_mod_cast hcount.1
  have hc2 : p.count ≤ 1000000 := by exact_mod_cast hcount.2
  have hb1 : 2 ≤ p.branches := by exact_mod_cast hbranches.1
  have hb2 : p.branches ≤ 20 := by exact_mod_cast hbranches.2
  refine ⟨parameters_inRange, h, ⟨hc1, hc2⟩, hsize, hradius, ⟨hb1, hb2⟩, hspin, hpow, ?_, ?_, ?_⟩
  · linarith [hpow.1]
  · have : (0 : α) < p.radius := by linarith [hradius.1]
    exact ne_of_gt this
  · omega

end Panel

/-- Witness of C9: the store after committing `radius = 1` and then `branches = 2`. -/
theorem reachable_in_domain_witness :
    Reachable ({ ({ (parameters : Parameters ℚ) with radius := 1 } : Parameters ℚ)
      with branches := 2 } : Parameters ℚ) ∧
    (0 : ℚ) < ({ ({ (parameters : Parameters ℚ) with radius := 1 } : Parameters ℚ)
      with branches := 2 } : Parameters ℚ).randomnessPower ∧
    ({ ({ (parameters : Parameters ℚ) with radius := 1 } : Parameters ℚ)
      with branches := 2 } : Parameters ℚ).radius ≠ 0 ∧
    ({ ({ (parameters : Parameters ℚ) with radius := 1 } : Parameters ℚ)
      with branches := 2 } : Parameters ℚ).branches ≠ 0 :=
  have hr : Reachable ({ ({ (parameters : Parameters ℚ) with radius := 1 } : Parameters ℚ)
      with branches := 2 } : Parameters ℚ) :=
    Relation.ReflTransGen.tail
      (Relation.ReflTransGen.tail Relation.ReflTransGen.refl
        (Commit.radius parameters 1 (by norm_num [gui]) (by norm_num [gui])))
      (Commit.branches _ 2 (by norm_num [gui]) (by norm_num [gui]))
  ⟨hr, (reachable_in_domain _ hr).2.2.2.2.2.2.2.2⟩

/-! ## Repeated regeneration: the scene -/

theorem pointClouds_append (l₁ l₂ : List Object3D) :
    pointClouds (l₁ ++ l₂) = pointClouds l₁ ++ pointClouds l₂ := by
  simp [pointClouds]

theorem mem_pointClouds (l : List Object3D) (id : Nat) :
    Object3D.points id ∈ pointClouds l ↔ Object3D.points id ∈ l := by
  simp [pointClouds]

theorem pointClouds_erase (l : List Object3D) (id : Nat) :
    pointClouds (l.erase (Object3D.points id)) = (pointClouds l).erase (Object3D.points id) := by
  induction l with
  | nil => rfl
  | cons a l ih =>
    by_cases ha : a = Object3D.points id
    · subst ha
      simp [pointClouds]
    · have hne : (a == Object3D.points id) = false := by simpa using ha
      rw [List.erase_cons, hne]
      cases a with
      | camera =>
        simpa [pointClouds] using ih
      | points j =>
        have hne2 : (Object3D.points j == Object3D.points id) = false := hne
        simp only [pointClouds, List.filter_cons_of_pos, List.erase_cons, hne2] at ih ⊢
        simpa using ih

theorem sceneInv_of_no_particles (s : GalaxyState α) (h0 : s.particles = none)
    (h1 : pointClouds s.scene = []) : s.SceneInv := by
  refine ⟨fun h => absurd h0 h, ?_, by simp [GalaxyState.installed, h0, h1]⟩
  intro id hmem
  have := (mem_pointClouds s.scene id).mpr hmem
  rw [h1] at this
  exact absurd this (List.not_mem_nil _)

section Regenerate

variable [LinearOrderedField α] [FloorRing α]

theorem generateGalaxy_of_none (env : Env α) (params : Parameters α) (s : GalaxyState α)
    (hp : s.particles = none) :
    generateGalaxy env params s = some (createMesh env params s) := by
  simp [generateGalaxy, destroyOldMesh, hp]

theorem generateGalaxy_of_some (env : Env α) (params : Parameters α) (s : GalaxyState α)
    (p : Points) (g : BufferGeometry α) (m : PointsMaterial α)
    (hp : s.particles = some p) (hg : s.geometry = some g) (hm : s.material = some m) :
    generateGalaxy env params s = some (createMesh env params
      { s with
        log := s.log ++ [Event.dispose (Resource.geometry g.id),
                         Event.dispose (Resource.material m.id)],
        scene := s.scene.erase (Object3D.points p.id) }) := by
  simp [generateGalaxy, destroyOldMesh, hp, hg, hm]

theorem regenerate_append (env : Env α) (before : List (Parameters α)) (last : Parameters α)
    (s : GalaxyState α) :
    regenerate env (before ++ [last]) s =
      (regenerate env before s).bind (generateGalaxy env last) := by
  induction before generalizing s with
  | nil =>
    simp only [List.nil_append, regenerate, Option.some_bind]
    cases generateGalaxy env last s <;> rfl
  | cons p rest ih =>
    simp only [List.cons_append, regenerate]
    cases generateGalaxy env p s with
    | none => rfl
    | some t => simpa using ih t

/-- One call keeps the scene invariant and leaves exactly the new point cloud. -/
theorem generateGalaxy_sceneInv (env : Env α) (params : Parameters α) (s : GalaxyState α)
    (h : s.SceneInv) :
    ∃ t, generateGalaxy env params s = some t ∧ t.SceneInv ∧
      t.particles = some { id := s.nextId + 2, geometry := s.nextId, material := s.nextId + 1 } ∧
      pointClouds t.scene = [Object3D.points (s.nextId + 2)] ∧
      Object3D.points (s.nextId + 2) ∉ s.scene := by
  obtain ⟨hw, hid, hpc⟩ := h
  have hfresh : Object3D.points (s.nextId + 2) ∉ s.scene := by
    intro hmem
    have := hid _ hmem
    omega
  cases hp : s.particles with
  | none =>
    have hpc0 : pointClouds s.scene = [] := by simpa [GalaxyState.installed, hp] using hpc
    refine ⟨_, generateGalaxy_of_none env params s hp, ⟨?_, ?_, ?_⟩, rfl, ?_, hfresh⟩
    · intro _
      exact ⟨by simp [createMesh], by simp [createMesh]⟩
    · intro id hmem
      simp only [createMesh, List.mem_append, List.mem_singleton] at hmem ⊢
      rcases hmem with hmem | hmem
      · have := hid _ hmem
        omega
      · injection hmem with hmem
        omega
    · show pointClouds (s.scene ++ [Object3D.points (s.nextId + 2)]) = _
      rw [pointClouds_append, hpc0]
      rfl
    · show pointClouds (s.scene ++ [Object3D.points (s.nextId + 2)]) = _
      rw [pointClouds_append, hpc0]
      rfl
  | some p =>
    obtain ⟨hg, hm⟩ := hw (by simp [hp])
    obtain ⟨g, hg⟩ := Option.ne_none_iff_exists'.mp hg
    obtain ⟨m, hm⟩ := Option.ne_none_iff_exists'.mp hm
    have hpc1 : pointClouds s.scene = [Object3D.points p.id] := by
      simpa [GalaxyState.installed, hp] using hpc
    have hpc0 : pointClouds (s.scene.erase (Object3D.points p.id)) = [] := by
      rw [pointClouds_erase, hpc1]
      simp
    refine ⟨_, generateGalaxy_of_some env params s p g m hp hg hm, ⟨?_, ?_, ?_⟩, rfl, ?_, hfresh⟩
    · intro _
      exact ⟨by simp [createMesh], by simp [createMesh]⟩
    · intro id hmem
      simp only [createMesh, List.mem_append, List.mem_singleton] at hmem ⊢
      rcases hmem with hmem | hmem
      · have := hid _ (List.mem_of_mem_erase hmem)
        omega
      · injection hmem with hmem
        omega
    · show pointClouds (s.scene.erase (Object3D.points p.id)
        ++ [Object3D.points (s.nextId + 2)]) = _
      rw [pointClouds_append, hpc0]
      rfl
    · show pointClouds (s.scene.erase (Object3D.points p.id)
        ++ [Object3D.points (s.nextId + 2)]) = _
      rw [pointClouds_append, hpc0]
      rfl

theorem regenerate_sceneInv (env : Env α) (calls : List (Parameters α)) (s : GalaxyState α)
    (h : s.SceneInv) : ∃ t, regenerate env calls s = some t ∧ t.SceneInv := by
  induction calls generalizing s with
  | nil => exact ⟨s, rfl, h⟩
  | cons p rest ih =>
    obtain ⟨t, ht, hinv, -⟩ := generateGalaxy_sceneInv env p s h
    obtain ⟨u, hu, huinv⟩ := ih t hinv
    exact ⟨u, by simp [regenerate, ht, hu], huinv⟩

/-- C3: starting from a state with `particles = null` and no point cloud in the
scene, any number of successive `generateGalaxy` calls returns, and afterwards at
most one point cloud is attached to the scene: none after zero calls, and after
at least one call exactly the point cloud created by the most recent call (the
object `particles` refers to, with an identity allocated by that call and
therefore absent from the scene before it). -/
theorem regenerate_single_point_cloud (env : Env α) (s₀ : GalaxyState α)
    (h0 : s₀.particles = none) (h1 : pointClouds s₀.scene = [])
    (calls : List (Parameters α)) :
    ∃ s, regenerate env calls s₀ = some s ∧
      (pointClouds s.scene).length ≤ 1 ∧
      (calls = [] → pointClouds s.scene = []) ∧
      ∀ before last, calls = before ++ [last] →
        ∃ sPrev, regenerate env before s₀ = some sPrev ∧
          generateGalaxy env last sPrev = some s ∧
          s.particles = some { id := sPrev.nextId + 2, geometry := sPrev.nextId,
                               material := sPrev.nextId + 1 } ∧
          pointClouds s.scene = [Object3D.points (sPrev.nextId + 2)] ∧
          Object3D.points (sPrev.nextId + 2) ∉ sPrev.scene := by
  have hinv := sceneInv_of_no_particles s₀ h0 h1
  obtain ⟨s, hs, hsinv⟩ := regenerate_sceneInv env calls s₀ hinv
  refine ⟨s, hs, ?_, ?_, ?_⟩
  · rw [hsinv.2.2]
    unfold GalaxyState.installed
    split <;> simp
  · intro hc
    subst hc
    simp only [regenerate, Option.some.injEq] at hs
    rw [← hs]
    exact h1
  · intro before last hc
    subst hc
    obtain ⟨sPrev, hprev, hprevInv⟩ := regenerate_sceneInv env before s₀ hinv
    obtain ⟨t, ht, -, hpart, hpc, hfresh⟩ := generateGalaxy_sceneInv env last sPrev hprevInv
    have hst : s = t := by
      rw [regenerate_append, hprev] at hs
      simp only [Option.some_bind] at hs
      rw [ht] at hs
      exact (Option.some.inj hs).symm
    subst hst
    exact ⟨sPrev, hprev, ht, hpart, hpc, hfresh⟩

end Regenerate

/-- Witness of C3: two successive calls from the initial state. -/
theorem regenerate_single_point_cloud_witness :
    (GalaxyState.initial (fun _ => (1 / 2 : ℝ))).particles = none ∧
    pointClouds (GalaxyState.initial (fun _ => (1 / 2 : ℝ))).scene = [] ∧
    ∃ s, regenerate (Env.mk Real.cos Real.sin Real.rpow Real.pi sampleColor
          (fun _ _ _ _ => [])) [scenario, scenario]
          (GalaxyState.initial (fun _ => (1 / 2 : ℝ))) = some s ∧
      (pointClouds s.scene).length ≤ 1 :=
  ⟨rfl, rfl,
    (regenerate_single_point_cloud (Env.mk Real.cos Real.sin Real.rpow Real.pi sampleColor
      (fun _ _ _ _ => [])) (GalaxyState.initial (fun _ => (1 / 2 : ℝ))) rfl rfl
      [scenario, scenario]).imp (fun _ hs => ⟨hs.1, hs.2.1⟩)⟩

/-! ## Repeated regeneration: resources -/

theorem created_append (l₁ l₂ : List Event) : created (l₁ ++ l₂) = created l₁ ++ created l₂ := by
  simp [created]

theorem disposed_append (l₁ l₂ : List Event) :
    disposed (l₁ ++ l₂) = disposed l₁ ++ disposed l₂ := by
  simp [disposed]

theorem created_map_dispose (rs : List Resource) : created (rs.map Event.dispose) = [] := by
  induction rs with
  | nil => rfl
  | cons r rs ih => simp [created]

theorem disposed_map_dispose (rs : List Resource) : disposed (rs.map Event.dispose) = rs := by
  induction rs with
  | nil => rfl
  | cons r rs ih => simpa [disposed] using ih

theorem created_map_create (rs : List Resource) : created (rs.map Event.create) = rs := by
  induction rs with
  | nil => rfl
  | cons r rs ih => simpa [created] using ih

theorem disposed_map_create (rs : List Resource) : disposed (rs.map Event.create) = [] := by
  induction rs with
  | nil => rfl
  | cons r rs ih => simp [disposed]

theorem live_append_dispose (log : List Event) (rs : List Resource) :
    live (log ++ rs.map Event.dispose) = (live log).filter (fun r => decide (r ∉ rs)) := by
  simp only [live, created_append, disposed_append, created_map_dispose, disposed_map_dispose,
    List.append_nil, List.filter_filter]
  congr 1
  funext r
  simp [List.mem_append, not_or, Bool.and_comm]

theorem live_append_create (log : List Event) (rs : List Resource)
    (hfresh : ∀ r, r ∈ rs → r ∉ disposed log) :
    live (log ++ rs.map Event.create) = live log ++ rs := by
  simp only [live, created_append, disposed_append, created_map_create, disposed_map_create,
    List.append_nil, List.filter_append]
  congr 1
  rw [List.filter_eq_self]
  intro r hr
  simpa using hfresh r hr

theorem mem_created_of_mem_live (log : List Event) (r : Resource) (h : r ∈ live log) :
    r ∈ created log :=
  (List.mem_filter.mp h).1

theorem not_mem_disposed_of_mem_live (log : List Event) (r : Resource) (h : r ∈ live log) :
    r ∉ disposed log := by
  simpa using (List.mem_filter.mp h).2

section Resources

variable [LinearOrderedField α] [FloorRing α]

/-- Creating the mesh in a state without live resources leaves exactly the new
geometry and material live. -/
theorem createMesh_logInv (env : Env α) (params : Parameters α) (s : GalaxyState α)
    (hc : ∀ r, r ∈ created s.log → r.id < s.nextId)
    (hd : ∀ r, r ∈ disposed s.log → r.id < s.nextId)
    (hn : (disposed s.log).Nodup) (hl : live s.log = []) :
    (createMesh env params s).LogInv ∧
    live (createMesh env params s).log =
      [Resource.geometry s.nextId, Resource.material (s.nextId + 1)] := by
  have hlog : (createMesh env params s).log =
      s.log ++ [Resource.geometry s.nextId, Resource.material (s.nextId + 1)].map Event.create := by
    simp [createMesh, BufferGeometry.setAttribute]
  have hfresh : ∀ r, r ∈ [Resource.geometry s.nextId, Resource.material (s.nextId + 1)] →
      r ∉ disposed s.log := by
    intro r hr hmem
    have h1 := hd r hmem
    simp only [List.mem_cons, List.mem_singleton, List.not_mem_nil, or_false] at hr
    rcases hr with hr | hr <;> subst hr <;> simp [Resource.id] at h1
  have hlive : live (createMesh env params s).log =
      [Resource.geometry s.nextId, Resource.material (s.nextId + 1)] := by
    rw [hlog, live_append_create _ _ hfresh, hl]
    rfl
  refine ⟨⟨?_, ?_, ?_, ?_, ?_⟩, hlive⟩
  · intro _
    exact ⟨by simp [createMesh], by simp [createMesh]⟩
  · intro r hr
    rw [hlog, created_append, created_map_create, List.mem_append] at hr
    have hnext : (createMesh env params s).nextId = s.nextId + 3 := rfl
    rw [hnext]
    rcases hr with hr | hr
    · have := hc r hr
      omega
    · simp only [List.mem_cons, List.mem_singleton, List.not_mem_nil, or_false] at hr
      rcases hr with hr | hr <;> subst hr <;> simp [Resource.id]
  · intro r hr
    rw [hlog, disposed_append, disposed_map_create, List.append_nil] at hr
    have hnext : (createMesh env params s).nextId = s.nextId + 3 := rfl
    rw [hnext]
    have := hd r hr
    omega
  · rw [hlog, disposed_append, disposed_map_create, List.append_nil]
    exact hn
  · rw [hlive]
    simp [GalaxyState.held, createMesh, BufferGeometry.setAttribute]

/-- One call keeps the resource invariant: it disposes exactly the live resources
and then creates a geometry and a material, which are the live ones afterwards. -/
theorem generateGalaxy_logInv (env : Env α) (params : Parameters α) (s : GalaxyState α)
    (h : s.LogInv) :
    ∃ t, generateGalaxy env params s = some t ∧ t.LogInv ∧
      t.log = s.log ++ (live s.log).map Event.dispose ++
        [Event.create (Resource.geometry s.nextId),
         Event.create (Resource.material (s.nextId + 1))] ∧
      live t.log = [Resource.geometry s.nextId, Resource.material (s.nextId + 1)] ∧
      t.held = [Resource.geometry s.nextId, Resource.material (s.nextId + 1)] := by
  obtain ⟨hw, hc, hd, hn, hl⟩ := h
  cases hp : s.particles with
  | none =>
    have hl0 : live s.log = [] := by simpa [GalaxyState.held, hp] using hl
    obtain ⟨hinv, hlive⟩ := createMesh_logInv env params s hc hd hn hl0
    refine ⟨_, generateGalaxy_of_none env params s hp, hinv, ?_, hlive, ?_⟩
    · rw [hl0]
      simp [createMesh, BufferGeometry.setAttribute]
    · rw [← hinv.2.2.2.2, hlive]
  | some p =>
    obtain ⟨hg, hm⟩ := hw (by simp [hp])
    obtain ⟨g, hg⟩ := Option.ne_none_iff_exists'.mp hg
    obtain ⟨m, hm⟩ := Option.ne_none_iff_exists'.mp hm
    have hl1 : live s.log = [Resource.geometry g.id, Resource.material m.id] := by
      simpa [GalaxyState.held, hp, hg, hm] using hl
    have hgl : Resource.geometry g.id ∈ live s.log := by rw [hl1]; simp
    have hml : Resource.material m.id ∈ live s.log := by rw [hl1]; simp
    have hlog' : s.log ++ [Event.dispose (Resource.geometry g.id),
        Event.dispose (Resource.material m.id)] =
        s.log ++ (live s.log).map Event.dispose := by
      rw [hl1]
      rfl
    have hc' : ∀ r, r ∈ created (s.log ++ [Event.dispose (Resource.geometry g.id),
        Event.dispose (Resource.material m.id)]) → r.id < s.nextId := by
      intro r hr
      rw [hlog', created_append, created_map_dispose, List.append_nil] at hr
      exact hc r hr
    have hd' : ∀ r, r ∈ disposed (s.log ++ [Event.dispose (Resource.geometry g.id),
        Event.dispose (Resource.material m.id)]) → r.id < s.nextId := by
      intro r hr
      rw [hlog', disposed_append, disposed_map_dispose, List.mem_append] at hr
      rcases hr with hr | hr
      · exact hd r hr
      · exact hc r (mem_created_of_mem_live _ _ hr)
    have hn' : (disposed (s.log ++ [Event.dispose (Resource.geometry g.id),
        Event.dispose (Resource.material m.id)])).Nodup := by
      rw [hlog', disposed_append, disposed_map_dispose, hl1]
      refine List.Nodup.append hn (by simp) ?_
      intro r hr1 hr2
      rw [← hl1] at hr2
      exact not_mem_disposed_of_mem_live _ _ hr2 hr1
    have hl' : live (s.log ++ [Event.dispose (Resource.geometry g.id),
        Event.dispose (Resource.material m.id)]) = [] := by
      rw [hlog', live_append_dispose]
      rw [List.filter_eq_nil_iff]
      intro r hr
      simpa using hr
    obtain ⟨hinv, hlive⟩ := createMesh_logInv env params
      { s with
        log := s.log ++ [Event.dispose (Resource.geometry g.id),
                         Event.dispose (Resource.material m.id)],
        scene := s.scene.erase (Object3D.points p.id) } hc' hd' hn' hl'
    refine ⟨_, generateGalaxy_of_some env params s p g m hp hg hm, hinv, ?_, hlive, ?_⟩
    · rw [hl1]
      simp [createMesh, BufferGeometry.setAttribute]
    · rw [← hinv.2.2.2.2, hlive]

theorem regenerate_logInv (env : Env α) (calls : List (Parameters α)) (s : GalaxyState α)
    (h : s.LogInv) : ∃ t, regenerate env calls s = some t ∧ t.LogInv := by
  induction calls generalizing s with
  | nil => exact ⟨s, rfl, h⟩
  | cons p rest ih =>
    obtain ⟨t, ht, hinv, -⟩ := generateGalaxy_logInv env p s h
    obtain ⟨u, hu, huinv⟩ := ih t hinv
    exact ⟨u, by simp [regenerate, ht, hu], huinv⟩

end Resources

theorem logInv_of_empty_log (s : GalaxyState α) (h0 : s.particles = none) (h1 : s.log = []) :
    s.LogInv := by
  refine ⟨fun h => absurd h0 h, ?_, ?_, ?_, ?_⟩
  · intro r hr
    rw [h1] at hr
    exact absurd hr (List.not_mem_nil _)
  · intro r hr
    rw [h1] at hr
    exact absurd hr (List.not_mem_nil _)
  · rw [h1]
    exact List.nodup_nil
  · rw [h1]
    simp [GalaxyState.held, h0, live, created]

/-- C4: starting from a state with `particles = null` and an empty log, any
sequence of `generateGalaxy` calls returns, and after each call exactly the
geometry and the material created by that call are live.  The call logs, in this
order, the disposal of the resources that were live before it and then the two
creations; those resources are none for the first call and the geometry and the
material created by the immediately preceding call otherwise; and no resource is
disposed twice. -/
theorem regenerate_resource_discipline [LinearOrderedField α] [FloorRing α] (env : Env α)
    (s₀ : GalaxyState α) (h0 : s₀.particles = none) (hlog : s₀.log = [])
    (before : List (Parameters α)) (last : Parameters α) :
    ∃ sPrev s, regenerate env before s₀ = some sPrev ∧
      generateGalaxy env last sPrev = some s ∧
      regenerate env (before ++ [last]) s₀ = some s ∧
      s.log = sPrev.log ++ (live sPrev.log).map Event.dispose ++
        [Event.create (Resource.geometry sPrev.nextId),
         Event.create (Resource.material (sPrev.nextId + 1))] ∧
      (before = [] → live sPrev.log = []) ∧
      (∀ earlier prev, before = earlier ++ [prev] →
        ∃ sEarlier, regenerate env earlier s₀ = some sEarlier ∧
          live sPrev.log = [Resource.geometry sEarlier.nextId,
                            Resource.material (sEarlier.nextId + 1)]) ∧
      live s.log = [Resource.geometry sPrev.nextId, Resource.material (sPrev.nextId + 1)] ∧
      s.held = [Resource.geometry sPrev.nextId, Resource.material (sPrev.nextId + 1)] ∧
      (disposed s.log).Nodup := by
  have hinv := logInv_of_empty_log s₀ h0 hlog
  obtain ⟨sPrev, hprev, hprevInv⟩ := regenerate_logInv env before s₀ hinv
  obtain ⟨s, hs, hsInv, hslog, hslive, hsheld⟩ := generateGalaxy_logInv env last sPrev hprevInv
  refine ⟨sPrev, s, hprev, hs, ?_, hslog, ?_, ?_, hslive, hsheld, hsInv.2.2.2.1⟩
  · rw [regenerate_append, hprev]
    exact hs
  · intro hb
    subst hb
    simp only [regenerate, Option.some.injEq] at hprev
    rw [← hprev, hlog]
    rfl
  · intro earlier prev hb
    subst hb
    obtain ⟨sEarlier, hearlier, hearlierInv⟩ := regenerate_logInv env earlier s₀ hinv
    obtain ⟨u, hu, -, -, hulive, -⟩ := generateGalaxy_logInv env prev sEarlier hearlierInv
    have hsu : sPrev = u := by
      rw [regenerate_append, hearlier] at hprev
      simp only [Option.some_bind] at hprev
      rw [hu] at hprev
      exact (Option.some.inj hprev).symm
    subst hsu
    exact ⟨sEarlier, hearlier, hulive⟩

/-- Witness of C4: a third call after two calls from the initial state. -/
theorem regenerate_resource_discipline_witness :
    (GalaxyState.initial (fun _ => (1 / 2 : ℝ))).particles = none ∧
    (GalaxyState.initial (fun _ => (1 / 2 : ℝ))).log = [] ∧
    ∃ sPrev s,
      regenerate (Env.mk Real.cos Real.sin Real.rpow Real.pi sampleColor (fun _ _ _ _ => []))
        [scenario, scenario] (GalaxyState.initial (fun _ => (1 / 2 : ℝ))) = some sPrev ∧
      generateGalaxy (Env.mk Real.cos Real.sin Real.rpow Real.pi sampleColor
        (fun _ _ _ _ => [])) scenario sPrev = some s ∧
      live s.log = [Resource.geometry sPrev.nextId, Resource.material (sPrev.nextId + 1)] ∧
      (disposed s.log).Nodup :=
  ⟨rfl, rfl,
    (regenerate_resource_discipline (Env.mk Real.cos Real.sin Real.rpow Real.pi sampleColor
      (fun _ _ _ _ => [])) (GalaxyState.initial (fun _ => (1 / 2 : ℝ))) rfl rfl
      [scenario, scenario] scenario).imp (fun _ hp => hp.imp (fun _ hs =>
        ⟨hs.1, hs.2.1, hs.2.2.2.2.2.2.1, hs.2.2.2.2.2.2.2.2⟩))⟩

end Galaxy
